import Mathlib

/-!
# PesaLog — verification of the SMS parsing / debt-reconciliation core

A shallow embedding, in Lean 4, of the PesaLog message-processing pipeline:
the JavaScript regular-expression dialect patterns, the SMS parser, the
amount parser (including its transient IEEE-754 binary64 round trip), the
reference linker and merge rule, the SMS listener, and the Fuliza debt
service.  Every definition is translated from the TypeScript source of the
repository; theorems at the end of the file settle the specification claims.

Modelling conventions:
* JavaScript numbers holding money are integer cents at runtime, except
  that a failed numeric parse yields NaN.  `JSNum := Option ℤ` models this,
  `none` standing for NaN.
* JavaScript `Date` values are modelled by `DateV`: either components (the
  `new Date(y, m, d, h, min, s)` constructor form) or an epoch-milliseconds
  value (`Date.now()` / timestamp form).
* Each `Date.now()` / `new Date()` read of the wall clock is passed in as
  an explicit `now : ℤ` parameter.
* The database is a record of in-memory tables; each drizzle query is
  translated to the corresponding list operation, with first-match
  (`List.find?`) semantics for `limit 1` / destructured selects.
-/

set_option maxRecDepth 20000

namespace PesaLog

/-- JavaScript number as used for amounts: `some n` is an integer count of
minor currency units, `none` models NaN (a failed numeric parse). -/
abbrev JSNum := Option ℤ

/-- JS `x + y` on amounts: NaN propagates. -/
def jadd : JSNum → JSNum → JSNum
  | some a, some b => some (a + b)
  | _, _ => none

/-- JS `x - y` on amounts: NaN propagates. -/
def jsub : JSNum → JSNum → JSNum
  | some a, some b => some (a - b)
  | _, _ => none

/-- JS `Math.max(0, x)`: `Math.max` of NaN is NaN. -/
def jmax0 : JSNum → JSNum
  | some a => some (max 0 a)
  | none => none

/-- JS `x <= 0` : false for NaN. -/
def jleZero : JSNum → Bool
  | some a => decide (a ≤ 0)
  | none => false

/-- JS `x || 0` on an amount: NaN and 0 are falsy and give 0. -/
def jorZero : JSNum → JSNum
  | some a => if a = 0 then some 0 else some a
  | none => some 0

/-! ## Character and string helpers (JavaScript string methods) -/

/-- `startsWithL pre l` : `l` begins with `pre`. -/
def startsWithL : List Char → List Char → Bool
  | [], _ => true
  | _ :: _, [] => false
  | p :: ps, c :: cs => p = c && startsWithL ps cs

/-- Substring containment on character lists. -/
def containsSub (needle : List Char) : List Char → Bool
  | [] => startsWithL needle []
  | c :: cs => startsWithL needle (c :: cs) || containsSub needle cs

/-- JS `hay.includes(needle)`. -/
def jsIncludes (hay needle : String) : Bool :=
  containsSub needle.data hay.data

/-- JS whitespace characters (the set relevant to these messages). -/
def isSpaceChar (c : Char) : Bool :=
  c = ' ' || c = '\t' || c = '\n' || c = '\r' ||
    c = Char.ofNat 11 || c = Char.ofNat 12

/-- JS `s.toUpperCase()` (ASCII, which is all the source compares). -/
def jsToUpper (s : String) : String :=
  String.mk (s.data.map Char.toUpper)

/-- JS `s.toLowerCase()` (ASCII). -/
def jsToLower (s : String) : String :=
  String.mk (s.data.map Char.toLower)

/-- JS `s.trim()`. -/
def jsTrim (s : String) : String :=
  String.mk (((s.data.dropWhile (isSpaceChar ·)).reverse.dropWhile
    (isSpaceChar ·)).reverse)

/-- Split a character list at a separator character. -/
def splitOnChar (sep : Char) : List Char → List (List Char)
  | [] => [[]]
  | c :: cs =>
    let rest := splitOnChar sep cs
    if c = sep then [] :: rest
    else
      match rest with
      | [] => [[c]]
      | g :: gs => (c :: g) :: gs

/-! ## A backtracking regular-expression engine

Models the JavaScript `RegExp` semantics used by the source pattern
library: character classes, greedy and lazy counted repetition,
alternation, non-capturing and named capturing groups, the word-boundary
assertion, the `i` flag (encoded in the character classes), and
leftmost-first matching with backtracking.  `rep 0 hi` follows the
ECMAScript rule that an optional iteration which consumes nothing is
abandoned. -/

inductive Regex where
  | eps : Regex
  | cls : (Char → Bool) → Regex
  | seq : Regex → Regex → Regex
  | alt : Regex → Regex → Regex
  | rep : Nat → Option Nat → Bool → Regex → Regex
  | grp : String → Regex → Regex
  | wb : Regex

/-- Matcher context: the previous character (for word boundaries) and the
remaining input. -/
structure MCtx where
  prev : Option Char
  rest : List Char

/-- Named-capture list; the most recent binding of a name wins, a missing
name is JavaScript `undefined`. -/
abbrev Caps := List (String × String)

/-- Successful match continuation result: remaining input and captures. -/
structure MEnd where
  rest : List Char
  caps : Caps

/-- JS `\w`. -/
def isWordChar (c : Char) : Bool :=
  c.isAlpha || c.isDigit || c = '_'

/-- The `\b` assertion at a context. -/
def wordBoundaryAt (ctx : MCtx) : Bool :=
  let before := match ctx.prev with | some c => isWordChar c | none => false
  let after := match ctx.rest with | c :: _ => isWordChar c | [] => false
  before != after

/-- Text consumed between two contexts of the same attempt. -/
def takeDiff (before after : List Char) : String :=
  String.mk (before.take (before.length - after.length))

/-- The backtracking matcher, continuation style.  `fuel` bounds the
recursion depth; it is chosen large enough to be inert (see `jsMatch`). -/
def mrun : Nat → Regex → MCtx → Caps → (MCtx → Caps → Option MEnd) →
    Option MEnd
  | 0, _, _, _, _ => none
  | fuel + 1, r, ctx, caps, k =>
    match r with
    | .eps => k ctx caps
    | .cls p =>
      match ctx.rest with
      | [] => none
      | c :: cs => if p c then k ⟨some c, cs⟩ caps else none
    | .seq a b =>
      mrun fuel a ctx caps (fun ctx2 caps2 => mrun fuel b ctx2 caps2 k)
    | .alt a b =>
      match mrun fuel a ctx caps k with
      | some res => some res
      | none => mrun fuel b ctx caps k
    | .wb => if wordBoundaryAt ctx then k ctx caps else none
    | .grp name inner =>
      mrun fuel inner ctx caps (fun ctx2 caps2 =>
        k ctx2 ((name, takeDiff ctx.rest ctx2.rest) :: caps2))
    | .rep lo hi greedy inner =>
      if lo > 0 then
        mrun fuel inner ctx caps (fun ctx2 caps2 =>
          mrun fuel (.rep (lo - 1) (hi.map (· - 1)) greedy inner) ctx2 caps2 k)
      else
        match hi with
        | some 0 => k ctx caps
        | _ =>
          let once := mrun fuel inner ctx caps (fun ctx2 caps2 =>
            if ctx2.rest.length = ctx.rest.length then none
            else
              mrun fuel (.rep 0 (hi.map (· - 1)) greedy inner) ctx2 caps2 k)
          if greedy then
            match once with
            | some res => some res
            | none => k ctx caps
          else
            match k ctx caps with
            | some res => some res
            | none => once

/-- A source pattern: a regex plus whether it begins with the `^` anchor
(none of the source patterns uses `m`, so `^` means start of input). -/
structure SPattern where
  anchored : Bool
  r : Regex

/-- One regex match: start and end index, matched text, captures. -/
structure MatchHit where
  startIdx : Nat
  endIdx : Nat
  matched : String
  caps : Caps
deriving DecidableEq, Repr

/-- Matcher fuel: generous bound on the backtracking depth for the source
patterns (well under 200 nodes each) on the given input. -/
def fuelFor (cs : List Char) : Nat := 2000 * (cs.length + 2)

/-- Attempt a match exactly at one position. -/
def matchHere (r : Regex) (full : List Char) (i : Nat) (prev : Option Char)
    (rest : List Char) : Option MatchHit :=
  match mrun (fuelFor full) r ⟨prev, rest⟩ []
      (fun ctx caps => some ⟨ctx.rest, caps⟩) with
  | some mend =>
    let len := rest.length - mend.rest.length
    some ⟨i, i + len, String.mk (rest.take len), mend.caps⟩
  | none => none

/-- Scan positions left to right for the first match. -/
def tryPositions (r : Regex) (full : List Char) :
    Nat → Option Char → List Char → Option MatchHit
  | i, prev, rest =>
    match matchHere r full i prev rest with
    | some hit => some hit
    | none =>
      match rest with
      | [] => none
      | c :: cs2 => tryPositions r full (i + 1) (some c) cs2

/-- JS `body.match(pattern)` for a non-global pattern. -/
def jsMatch (p : SPattern) (s : String) : Option MatchHit :=
  let cs := s.data
  if p.anchored then matchHere p.r cs 0 none cs
  else tryPositions p.r cs 0 none cs

/-- The value of `match.groups.name` (`none` is JS `undefined`). -/
def getGroup (caps : Caps) (name : String) : Option String :=
  (caps.find? (fun pr => pr.1 == name)).map (·.2)

/-- A required capture (always present when the surrounding match
succeeded, which is how the source uses it). -/
def reqGroup (caps : Caps) (name : String) : String :=
  (getGroup caps name).getD ""

/-- JS truthiness of a capture value: `undefined` and `""` are falsy. -/
def capTruthy (o : Option String) : Bool :=
  match o with
  | some s => s ≠ ""
  | none => false

/-- All non-overlapping matches, left to right (JS `/g` semantics): after
a hit, scanning resumes at its end; an empty hit advances one position. -/
def matchAllAux (r : Regex) (full : List Char) :
    Nat → Nat → Option Char → List Char → List MatchHit
  | 0, _, _, _ => []
  | fuel + 1, i, prev, rest =>
    match matchHere r full i prev rest with
    | some hit =>
      let len := hit.endIdx - hit.startIdx
      if len = 0 then
        match rest with
        | [] => []
        | c :: cs2 => matchAllAux r full fuel (i + 1) (some c) cs2
      else
        hit :: matchAllAux r full fuel (i + len) ((rest.take len).getLast?)
          (rest.drop len)
    | none =>
      match rest with
      | [] => []
      | c :: cs2 => matchAllAux r full fuel (i + 1) (some c) cs2

/-- JS `s.match(/…/g)`, as the list of hits (empty list for `null`). -/
def jsMatchAll (r : Regex) (s : String) : List MatchHit :=
  matchAllAux r s.data (s.data.length + 1) 0 none s.data

/-- Rebuild a string replacing every hit by `repl hit` (JS
`s.replace(/…/g, …)`). Hits are in order and non-overlapping. -/
def spliceAll (cs : List Char) (pos : Nat) (repl : MatchHit → String) :
    List MatchHit → String
  | [] => String.mk cs
  | hit :: rest =>
    String.mk (cs.take (hit.startIdx - pos)) ++ repl hit ++
      spliceAll (cs.drop (hit.endIdx - pos)) hit.endIdx repl rest

/-! ## The dialect pattern library (`constants/sms-patterns.ts`)

Each JavaScript regex literal is transcribed node by node.  All the
transaction patterns carry the `i` flag, which is encoded directly in the
character classes and literals (`chCI`/`li`); the reference-code and
normalization patterns are case sensitive. -/

/-- Concatenation of regex nodes. -/
def rcat (l : List Regex) : Regex := l.foldr .seq .eps

/-- A single character, case-insensitively (`i` flag). -/
def chCI (ch : Char) : Regex := .cls (fun c => c.toLower = ch.toLower)

/-- A literal word, case-insensitively (`i` flag). -/
def li (s : String) : Regex := rcat (s.data.map chCI)

/-- A single exact character (case-sensitive patterns). -/
def chX (ch : Char) : Regex := .cls (fun c => c = ch)

/-- `r?` -/
def q01 (r : Regex) : Regex := .rep 0 (some 1) true r

/-- `r+` -/
def qPlus (r : Regex) : Regex := .rep 1 none true r

/-- `r*` -/
def qStar (r : Regex) : Regex := .rep 0 none true r

/-- `r{n}` -/
def qN (n : Nat) (r : Regex) : Regex := .rep n (some n) true r

/-- `r{lo,hi}` -/
def qR (lo hi : Nat) (r : Regex) : Regex := .rep lo (some hi) true r

/-- `\s+` -/
def ws1 : Regex := qPlus (.cls isSpaceChar)

/-- `\s*` -/
def ws0 : Regex := qStar (.cls isSpaceChar)

/-- `\d` -/
def cDigit : Regex := .cls (·.isDigit)

/-- `[A-Z0-9]` under the `i` flag. -/
def alnumCI : Regex := .cls (fun c => c.isAlpha || c.isDigit)

/-- `[A-Z0-9]` case-sensitive. -/
def alnumCS : Regex := .cls (fun c => ('A' ≤ c && c ≤ 'Z') || c.isDigit)

/-- `[A-Z]` case-sensitive. -/
def upperCS : Regex := .cls (fun c => 'A' ≤ c && c ≤ 'Z')

/-- `[A-Z]` under the `i` flag. -/
def alphaCI : Regex := .cls (·.isAlpha)

/-- `\w` -/
def wordC : Regex := .cls isWordChar

/-- `.` (JS dot: anything but a line terminator). -/
def dotAny : Regex := .cls (fun c => !(c = '\n' || c = '\r'))

/-- `.+?` -/
def lazyAny1 : Regex := .rep 1 none false dotAny

/-- `(?<name>[\d,]+(?:\.\d{2})?)` — the standard amount capture. -/
def amountG (name : String) : Regex :=
  .grp name (rcat [qPlus (.cls (fun c => c.isDigit || c = ',')),
    q01 (rcat [chCI '.', qN 2 cDigit])])

/-- `(?<name>[A-Z0-9]{10})` under `i`. -/
def refCode10 (name : String) : Regex := .grp name (qN 10 alnumCI)

/-- `\d{1,2}\/\d{1,2}\/\d{2,4}` -/
def dateSlash : Regex :=
  rcat [qR 1 2 cDigit, chCI '/', qR 1 2 cDigit, chCI '/', qR 2 4 cDigit]

/-- `\d{1,2}:\d{2}\s*[AP]M` under `i`. -/
def time12 : Regex :=
  rcat [qR 1 2 cDigit, chCI ':', qN 2 cDigit, ws0,
    .cls (fun c => c.toUpper = 'A' || c.toUpper = 'P'), chCI 'M']

/-- `MPESA_SEND_PATTERN` -/
def MPESA_SEND_PATTERN : SPattern := ⟨true, rcat [
  refCode10 "refCode", ws1, li "confirmed", chCI '.', ws1, li "Ksh", ws0,
  amountG "amount", ws1, .alt (li "sent") (li "paid"), ws1, li "to", ws1,
  .grp "recipient" lazyAny1, q01 (chCI '.'), ws1,
  q01 (rcat [.grp "phone" (rcat [chCI '0', qN 9 cDigit]), ws1]),
  li "on", ws1, .grp "date" dateSlash, ws1, li "at", ws1,
  .grp "time" time12, q01 (chCI '.'), ws0,
  q01 (rcat [li "New", ws1, li "M-PESA", ws1, li "balance", ws1, li "is",
    ws1, li "Ksh", ws0, amountG "balance"]),
  q01 (chCI '.'), ws0,
  q01 (rcat [li "Transaction", ws1, li "cost", q01 (chCI ','), ws0,
    li "Ksh", ws0, amountG "fee"])]⟩

/-- `MPESA_PAYBILL_PATTERN` -/
def MPESA_PAYBILL_PATTERN : SPattern := ⟨true, rcat [
  refCode10 "refCode", ws1, li "Confirmed", chCI '.', ws1, li "Ksh", ws0,
  amountG "amount", ws1, li "sent", ws1, li "to", ws1,
  .grp "paybillName" lazyAny1, ws1, li "for", ws1, li "account", ws1,
  .grp "account" (qPlus wordC), ws1, li "on", ws1, .grp "date" dateSlash,
  ws1, li "at", ws1, .grp "time" time12, q01 (chCI '.'), ws0,
  q01 (rcat [li "New", ws1, li "M-PESA", ws1, li "balance", ws1, li "is",
    ws1, li "Ksh", ws0, amountG "balance"]),
  q01 (chCI '.'), ws0,
  q01 (rcat [li "Transaction", ws1, li "cost", q01 (chCI ','), ws0,
    li "Ksh", ws0, amountG "fee"])]⟩

/-- `MPESA_PAYBILL_ALT_PATTERN` (unanchored). -/
def MPESA_PAYBILL_ALT_PATTERN : SPattern := ⟨false, rcat [
  li "Confirmed", chCI '.', ws0, li "Your", ws1, li "M-PESA", ws1,
  li "transaction", ws1, refCode10 "refCode", ws1, li "of", ws1, li "Ksh",
  ws0, amountG "amount", ws1, li "to", ws1, .grp "paybillName" lazyAny1,
  ws1, q01 (rcat [li "Paybill", ws1]), q01 (rcat [li "A/C", ws1]),
  li "for", ws1, li "account", ws1, .grp "account" (qPlus wordC), ws1,
  li "on", ws1,
  .grp "date" (rcat [qN 2 cDigit, .cls (fun c => c = '/' || c = '-'),
    qN 2 cDigit, .cls (fun c => c = '/' || c = '-'), qR 2 4 cDigit]),
  ws1, li "at", ws1, .grp "time" time12]⟩

/-- `MPESA_TILL_PATTERN` (unanchored). -/
def MPESA_TILL_PATTERN : SPattern := ⟨false, rcat [
  li "Confirmed", chCI '.', ws0, li "Payment", ws1, li "of", ws1, li "KES",
  q01 (chCI '.'), ws0, amountG "amount", ws1, li "to", ws1,
  .grp "tillName" lazyAny1, ws1, li "Till", ws1, li "No", q01 (chCI '.'),
  ws0, .grp "tillNumber" (qPlus cDigit), ws1, li "has", ws1, li "been",
  ws1, li "received", chCI '.', ws0, li "Ref", q01 (chCI '.'), ws0,
  refCode10 "refCode", ws1, li "on", ws1,
  .grp "date" (rcat [qN 2 cDigit, chCI '-', qN 2 cDigit, chCI '-',
    qN 4 cDigit]),
  ws1, li "at", ws1, .grp "time" (rcat [qN 2 cDigit, chCI ':',
    qN 2 cDigit])]⟩

/-- `MPESA_AIRTIME_PATTERN` -/
def MPESA_AIRTIME_PATTERN : SPattern := ⟨true, rcat [
  refCode10 "refCode", ws1, li "confirmed", q01 (chCI '.'), ws0, li "You",
  ws1, li "bought", ws1, li "Ksh", ws0, amountG "amount", ws1, li "of",
  ws1, li "airtime", ws1, li "on", ws1, .grp "date" dateSlash, ws1,
  li "at", ws1, .grp "time" time12, q01 (chCI '.'), ws0,
  q01 (rcat [li "New", ws1, li "M-PESA", ws1, li "balance", ws1, li "is",
    ws1, li "Ksh", ws0, amountG "balance"])]⟩

/-- `MPESA_AGENT_PATTERN` -/
def MPESA_AGENT_PATTERN : SPattern := ⟨true, rcat [
  refCode10 "refCode", ws1, li "Confirmed", chCI '.', ws0, li "On", ws1,
  .grp "date" dateSlash, ws1, li "at", ws1, .grp "time" time12, ws1,
  li "Give", ws1, li "Ksh", ws0, amountG "amount", ws1, li "cash", ws1,
  li "to", ws1, .grp "agentName" lazyAny1, ws1, q01 (rcat [li "New", ws1]),
  li "M-PESA", ws1, li "balance", ws1, li "is", ws1, li "Ksh", ws0,
  amountG "balance"]⟩

/-- `MPESA_RECEIVED_PATTERN` -/
def MPESA_RECEIVED_PATTERN : SPattern := ⟨true, rcat [
  refCode10 "refCode", ws1, li "Confirmed", chCI '.', ws0, li "You", ws1,
  li "have", ws1, li "received", ws1, li "Ksh", ws0, amountG "amount", ws1,
  li "from", ws1, .grp "sender" lazyAny1, ws1,
  q01 (.grp "phone" (rcat [chCI '0', qN 9 cDigit])), ws0, li "on", ws1,
  .grp "date" dateSlash, ws1, li "at", ws1, .grp "time" time12]⟩

/-- `BANK_TRANSFER_PATTERN` -/
def BANK_TRANSFER_PATTERN : SPattern := ⟨true, rcat [
  .grp "sender" lazyAny1, ws1, li "has", ws1, li "transferred", ws1,
  li "KES", ws1, amountG "amount", ws1, li "to", ws1, li "your", ws1,
  li "MPESA", chCI '.', ws0,
  q01 (rcat [li "Please", ws1, li "await", ws1, li "MPESA", ws1,
    li "notification", chCI '.']),
  ws0, li "MPESA", ws1, li "ref", ws1, li "is", ws1,
  .grp "mpesaRef" (qPlus alnumCI), ws0,
  q01 (rcat [q01 (chCI '&'), ws0, li "Bank", ws1, li "transaction", ws1,
    li "ref", ws1, li "is", ws1, .grp "bankRef" (qPlus cDigit)])]⟩

/-- `BANK_CONFIRMATION_PATTERN` -/
def BANK_CONFIRMATION_PATTERN : SPattern := ⟨true, rcat [
  li "Dear", ws1, .grp "recipient" lazyAny1, chCI ',', ws0, li "you", ws1,
  li "have", ws1, li "sent", ws1, li "Ksh", q01 (chCI '.'), ws0,
  .grp "amount" (rcat [qPlus (.cls (fun c => c.isDigit || c = ',')),
    q01 (rcat [chCI '.', qPlus cDigit])]),
  ws1, li "to", ws1, .grp "business" lazyAny1, ws1, li "for", ws1,
  .grp "account" (qPlus wordC), ws1, li "on", ws1,
  .grp "date" (rcat [qN 2 cDigit, chCI '/', qN 2 cDigit, chCI '/',
    qN 4 cDigit]),
  ws1, li "at", ws1,
  .grp "time" (qPlus (.cls (fun c => c.isDigit || c = ':'))), chCI '.',
  ws0, li "MPESA", ws1, li "Ref", chCI '.', ws0,
  .grp "refCode" (qPlus alnumCI)]⟩

/-- `CARD_TRANSACTION_PATTERN` -/
def CARD_TRANSACTION_PATTERN : SPattern := ⟨true, rcat [
  .grp "currency" (qN 3 alphaCI), ws1, amountG "amount", ws1,
  li "transaction", ws1, li "made", ws1, li "on", ws1,
  .grp "bank" (qPlus wordC), ws1, li "card", ws1,
  .grp "cardMask" (rcat [qN 4 cDigit, qR 2 3 (chCI '*'), qN 4 cDigit]),
  ws1, li "at", ws1, .grp "merchant" lazyAny1, ws1, li "on", ws1,
  .grp "date" (rcat [qN 2 cDigit, chCI '/', qN 2 cDigit, chCI '/',
    qN 4 cDigit]),
  ws1,
  .grp "time" (rcat [qN 2 cDigit, chCI ':', qN 2 cDigit,
    q01 (.alt (li "am") (li "pm"))]),
  q01 (chCI ','), ws0,
  q01 (rcat [li "Avail", ws1, li "balance", ws1,
    .grp "balanceCurrency" (qN 3 alphaCI), ws1, amountG "balance"])]⟩

/-- `FULIZA_PATTERN` -/
def FULIZA_PATTERN : SPattern := ⟨true, rcat [
  refCode10 "refCode", ws1, li "Confirmed", chCI '.', ws1, li "Fuliza",
  ws1, li "M-Pesa", ws1, li "amount", ws1, li "is", ws1, li "Ksh", ws0,
  amountG "principal", chCI '.', ws0, li "Access", ws1, li "Fee", ws1,
  li "charged", ws1, li "Ksh", ws0, amountG "fee", chCI '.', ws0,
  li "Total", ws1, li "Fuliza", ws1, li "M-Pesa", ws1, li "outstanding",
  ws1, li "amount", ws1, li "is", ws1, li "Ksh", ws0,
  amountG "totalOutstanding", ws1, li "due", ws1, li "on", ws1,
  .grp "dueDate" (rcat [qN 2 cDigit, chCI '/', qN 2 cDigit, chCI '/',
    qN 2 cDigit])]⟩

/-- `FULIZA_REPAYMENT_PATTERN` -/
def FULIZA_REPAYMENT_PATTERN : SPattern := ⟨true, rcat [
  refCode10 "refCode", ws1, li "Confirmed", chCI '.', ws0,
  q01 (rcat [li "Your", ws1]), li "Fuliza", ws1, li "M-Pesa", ws1,
  q01 (rcat [li "loan", ws1]), q01 (rcat [li "of", ws1]), li "Ksh", ws0,
  amountG "amount", ws1, li "has", ws1, li "been", ws1,
  .alt (li "repaid") (li "paid")]⟩

/-- `FULIZA_AUTO_REPAYMENT_PATTERN` -/
def FULIZA_AUTO_REPAYMENT_PATTERN : SPattern := ⟨true, rcat [
  refCode10 "refCode", ws1, li "Confirmed", chCI '.', ws0, li "Ksh", ws0,
  amountG "amount", ws1, li "from", ws1, li "your", ws1, li "M-PESA", ws1,
  li "has", ws1, li "been", ws1, li "used", ws1, li "to", ws1,
  .grp "paymentType" (.alt (li "partially") (li "fully")), ws1, li "pay",
  ws1, li "your", ws1, li "outstanding", ws1, li "Fuliza", ws1,
  li "M-PESA", q01 (chCI '.'), ws0, q01 (rcat [li "Your", ws1]),
  q01 (rcat [li "Available", ws1]), li "Fuliza", ws1, li "M-PESA", ws1,
  li "limit", ws1, li "is", ws1, li "Ksh", ws0, amountG "availableLimit",
  q01 (chCI '.'), ws0, li "M-PESA", ws1, li "balance", ws1, li "is", ws1,
  li "Ksh", ws0, amountG "balance"]⟩

/-- `MSHWARI_TRANSFER_PATTERN` -/
def MSHWARI_TRANSFER_PATTERN : SPattern := ⟨true, rcat [
  refCode10 "refCode", ws1, li "Confirmed", q01 (chCI '.'), ws0, li "Ksh",
  ws0, amountG "amount", ws1, li "transferred", ws1, li "from", ws1,
  li "M-Shwari", ws1, li "account", ws1, li "on", ws1, .grp "date"
  dateSlash, ws1, li "at", ws1, .grp "time" time12, q01 (chCI '.'), ws0,
  q01 (rcat [li "M-Shwari", ws1, li "balance", ws1, li "is", ws1, li "Ksh",
    ws0, amountG "shwariBalance"]),
  q01 (chCI '.'), ws0,
  q01 (rcat [li "M-PESA", ws1, li "balance", ws1, li "is", ws1, li "Ksh",
    ws0, amountG "mpesaBalance"])]⟩

/-- `REF_CODE_PATTERN` = `/\b([A-Z]{2,3}[A-Z0-9]{7,8})\b/g`
(case sensitive, no `i`). -/
def refCodeRe : Regex :=
  rcat [.wb, .grp "1" (rcat [qR 2 3 upperCS, qR 7 8 alnumCS]), .wb]

/-- The parser body normalization pattern `/([A-Z0-9]{10})\s*\n\s*/g`. -/
def normRe : Regex :=
  rcat [.grp "1" (qN 10 alnumCS), ws0, chX '\n', ws0]

/-- `parseMessage` body normalization: rejoin a reference code that a
carrier wrapped across a line break (`body.replace(normRe, '$1 ')`). -/
def normalizeBody (body : String) : String :=
  spliceAll body.data 0 (fun hit => reqGroup hit.caps "1" ++ " ")
    (jsMatchAll normRe body)

/-- `extractRefCodes`: all distinct reference-code tokens, in encounter
order (`[...new Set(body.match(REF_CODE_PATTERN))]`). -/
def dedupeAux : List String → List String → List String
  | _, [] => []
  | seen, s :: rest =>
    if seen.contains s then dedupeAux seen rest
    else s :: dedupeAux (s :: seen) rest

/-- `extractRefCodes` from `constants/sms-patterns.ts`. -/
def extractRefCodes (body : String) : List String :=
  dedupeAux [] ((jsMatchAll refCodeRe body).map (·.matched))

/-! ## Dates (`utils/date.ts`)

A JavaScript `Date` is either built from components
(`new Date(y, m0, d, hh, mi, ss)`, month 0-based, as the parsers do) or
holds an instant (a timestamp / `Date.now()`).  Comparisons convert
components to epoch milliseconds with the proleptic Gregorian calendar at
zero offset, standing for the device-local clock. -/

inductive DateV where
  | comp (y m0 d hh mi ss : ℤ)
  | epoch (ms : ℤ)
deriving DecidableEq, Repr

/-- Days from 1970-01-01 of a civil date (month 1-based); the years that
occur here are all positive, where truncated division agrees with the
standard algorithm. -/
def daysFromCivil (y m d : ℤ) : ℤ :=
  let y1 := if m ≤ 2 then y - 1 else y
  let era := y1 / 400
  let yoe := y1 - era * 400
  let mp := (m + 9) % 12
  let doy := (153 * mp + 2) / 5 + d - 1
  let doe := yoe * 365 + yoe / 4 - yoe / 100 + doy
  era * 146097 + doe - 719468

/-- `Date.prototype.getTime()`. -/
def DateV.toEpoch : DateV → ℤ
  | .epoch ms => ms
  | .comp y m0 d hh mi ss =>
    daysFromCivil y (m0 + 1) d * 86400000 + hh * 3600000 + mi * 60000 +
      ss * 1000

/-- `isOverdue(dueDate)` = `dueDate < new Date()`. -/
def isOverdue (dueDate : DateV) (now : ℤ) : Bool :=
  dueDate.toEpoch < now

/-- JS `parseInt(p, 10)` on the digit strings produced by the date
patterns (its NaN case is unreachable there and modelled as 0). -/
def jsParseIntDigits (s : String) : ℤ :=
  ((s.data.takeWhile (·.isDigit)).foldl
    (fun a c => a * 10 + (c.toNat - 48)) 0 : ℕ)

/-- The time pattern of `parseSmsDate`: `/(\d{1,2}):(\d{2})\s*(AM|PM)?/i`. -/
def timeRe12 : SPattern :=
  ⟨false, rcat [.grp "1" (qR 1 2 cDigit), chCI ':', .grp "2" (qN 2 cDigit),
    ws0, q01 (.grp "3" (.alt (li "AM") (li "PM")))]⟩

/-- The time pattern of `parseTillDate`: `/(\d{1,2}):(\d{2})/`. -/
def timeRe24 : SPattern :=
  ⟨false, rcat [.grp "1" (qR 1 2 cDigit), chX ':', .grp "2" (qN 2 cDigit)]⟩

/-- The hours/minutes extraction of `parseSmsDate` (12-hour clock with
optional meridiem). -/
def parseTime12 (cleanTime : String) : ℤ × ℤ :=
  match jsMatch timeRe12 cleanTime with
  | some hit =>
    let hours := jsParseIntDigits (reqGroup hit.caps "1")
    let minutes := jsParseIntDigits (reqGroup hit.caps "2")
    let meridiem := (getGroup hit.caps "3").map jsToUpper
    if meridiem = some "PM" ∧ hours ≠ 12 then (hours + 12, minutes)
    else if meridiem = some "AM" ∧ hours = 12 then (0, minutes)
    else (hours, minutes)
  | none => (0, 0)

/-- The hours/minutes extraction of `parseTillDate` (24-hour clock). -/
def parseTime24 (cleanTime : String) : ℤ × ℤ :=
  match jsMatch timeRe24 cleanTime with
  | some hit =>
    (jsParseIntDigits (reqGroup hit.caps "1"),
      jsParseIntDigits (reqGroup hit.caps "2"))
  | none => (0, 0)

/-- `parseSmsDate` from `utils/date.ts`.  The source throws on a date that
does not split into three parts; that branch is unreachable from the
pattern captures and is modelled by a junk date. -/
def parseSmsDate (dateStr : String) (timeStr : Option String) : DateV :=
  let cleanDate := jsTrim dateStr
  let cleanTime := jsTrim (timeStr.getD "")
  let parts := (splitOnChar '/' cleanDate.data).map
    (fun g => jsParseIntDigits (String.mk g))
  match parts with
  | [p0, p1, p2] =>
    let dmy : ℤ × ℤ × ℤ :=
      if p2 ≥ 100 then
        if p0 > 12 then (p0, p1, p2)
        else if p1 > 12 then (p1, p0, p2)
        else (p0, p1, p2)
      else (p0, p1, if p2 < 50 then 2000 + p2 else 1900 + p2)
    let t := if cleanTime ≠ "" then parseTime12 cleanTime else (0, 0)
    .comp dmy.2.2 (dmy.2.1 - 1) dmy.1 t.1 t.2 0
  | _ => .comp 0 0 0 0 0 0

/-- `parseTillDate` from `utils/date.ts` (`DD-MM-YYYY` with 24-hour
time); the throwing branch is unreachable as in `parseSmsDate`. -/
def parseTillDate (dateStr : String) (timeStr : Option String) : DateV :=
  let cleanDate := jsTrim dateStr
  let cleanTime := jsTrim (timeStr.getD "")
  let parts := (splitOnChar '-' cleanDate.data).map
    (fun g => jsParseIntDigits (String.mk g))
  match parts with
  | [day, month, year] =>
    let t := if cleanTime ≠ "" then parseTime24 cleanTime else (0, 0)
    .comp year (month - 1) day t.1 t.2 0
  | _ => .comp 0 0 0 0 0 0

/-- `parseFulizaDueDate` from `utils/date.ts` (`DD/MM/YY`, two-digit year
with a 1950 cutover, pinned to 23:59:59). -/
def parseFulizaDueDate (dueDateStr : String) : DateV :=
  let parts := (splitOnChar '/' dueDateStr.data).map
    (fun g => jsParseIntDigits (String.mk g))
  match parts with
  | [day, month, year0] =>
    let year := if year0 < 50 then 2000 + year0 else 1900 + year0
    .comp year (month - 1) day 23 59 59
  | _ => .comp 0 0 0 0 0 0

/-! ## The amount parser and its transient binary64 double
(`utils/currency.ts`)

`parseAmountToCents` is
`Math.round(parseFloat(amountStr.replace(/,/g, '')) * 100)`.
`parseFloat` yields the IEEE-754 binary64 double nearest to the decimal
value (ties to even), the multiplication by 100 is again correctly
rounded, and `Math.round` rounds half toward `+∞`.  The model computes
with exact integer arithmetic: a decimal literal is a pair `m / 10^k`,
a double is a pair `m · 2^e` (`Dyadic`).  All values arising here are
nonnegative and in the binary64 normal range, so neither sign, subnormal,
nor overflow handling is needed. -/

/-- `⌊log₂ n⌋` by structural recursion (for `n ≥ 1`). -/
def natLog2Aux : Nat → Nat → Nat
  | 0, _ => 0
  | fuel + 1, n => if 2 ≤ n then natLog2Aux fuel (n / 2) + 1 else 0

/-- `⌊log₂ n⌋` (0 at 0). -/
def natLog2 (n : Nat) : Nat := natLog2Aux n n

/-- An exact decimal value `m / 10^k`. -/
structure DecVal where
  m : Nat
  k : Nat
deriving DecidableEq, Repr

/-- The value of a decimal literal. -/
def DecVal.val (d : DecVal) : ℚ := (d.m : ℚ) / (10 : ℚ) ^ d.k

/-- A nonnegative binary64 value `m · 2^e`. -/
structure Dyadic where
  m : Nat
  e : ℤ
deriving DecidableEq, Repr

/-- The value of a dyadic. -/
def Dyadic.val (d : Dyadic) : ℚ := (d.m : ℚ) * (2 : ℚ) ^ d.e

/-- `a / b < 2 ^ t`, by integer comparison. -/
def ltPow2 (a b : Nat) (t : ℤ) : Bool :=
  if 0 ≤ t then decide (a < b * 2 ^ t.toNat)
  else decide (a * 2 ^ (-t).toNat < b)

/-- Round `a / b` to the nearest integer, ties to even. -/
def rheFrac (a b : Nat) : Nat :=
  let f := a / b
  let r := a % b
  if 2 * r < b then f
  else if b < 2 * r then f + 1
  else if f % 2 = 0 then f else f + 1

/-- Round the positive rational `a / b` to the nearest binary64 double
(round to nearest, ties to even): pick the exponent `e` with
`2^52 ≤ (a/b) / 2^e < 2^53` and round the scaled mantissa. -/
def flFrac (a b : Nat) : Dyadic :=
  if a = 0 then ⟨0, 0⟩
  else
    let e0 : ℤ := (natLog2 a : ℤ) - (natLog2 b : ℤ) - 1
    let lg : ℤ := if ltPow2 a b (e0 + 1) then e0 else e0 + 1
    let e : ℤ := lg - 52
    if 0 ≤ e then ⟨rheFrac a (b * 2 ^ e.toNat), e⟩
    else ⟨rheFrac (a * 2 ^ (-e).toNat) b, e⟩

/-- The correctly rounded double product `d * 100`. -/
def flMul100 (d : Dyadic) : Dyadic :=
  if 0 ≤ d.e then flFrac (d.m * 100 * 2 ^ d.e.toNat) 1
  else flFrac (d.m * 100) (2 ^ (-d.e).toNat)

/-- JS `Math.round` on a nonnegative double: `⌊x + 1/2⌋`. -/
def jsRoundD (d : Dyadic) : Nat :=
  if 0 ≤ d.e then d.m * 2 ^ d.e.toNat
  else (2 * d.m + 2 ^ (-d.e).toNat) / 2 ^ ((-d.e).toNat + 1)

/-- Numeric value of a digit run. -/
def digitsVal (l : List Char) : Nat :=
  l.foldl (fun a c => a * 10 + (c.toNat - 48)) 0

/-- The decimal-literal core of JS `parseFloat` on the comma-stripped
amount captures (`digits`, `digits.digits` or `.digits`; anything with no
leading digit run and no fraction is NaN).  Signs, exponents and
`Infinity`, which no amount capture can produce, are out of scope. -/
def decLit (s : String) : Option DecVal :=
  let cs := s.data
  let ip := cs.takeWhile (·.isDigit)
  let rest := cs.drop ip.length
  match rest with
  | '.' :: rest2 =>
    let fp := rest2.takeWhile (·.isDigit)
    if ip.isEmpty ∧ fp.isEmpty then none
    else some ⟨digitsVal ip * 10 ^ fp.length + digitsVal fp, fp.length⟩
  | _ => if ip.isEmpty then none else some ⟨digitsVal ip, 0⟩

/-- `amountStr.replace(/,/g, '')`. -/
def stripCommas (s : String) : String :=
  String.mk (s.data.filter (fun c => c ≠ ','))

/-- `parseAmountToCents` from `utils/currency.ts`:
`Math.round(parseFloat(amountStr.replace(/,/g, '')) * 100)`.
A NaN parse propagates to a NaN result. -/
def parseAmountToCents (s : String) : JSNum :=
  match decLit (stripCommas s) with
  | none => none
  | some dv => some ((jsRoundD (flMul100 (flFrac dv.m (10 ^ dv.k))) : ℕ) : ℤ)

/-- `parseCurrency` from `utils/currency.ts`. -/
def parseCurrency (text : String) : String :=
  let normalized := jsTrim (jsToUpper text)
  if jsIncludes normalized "USD" || jsIncludes normalized "$" then "USD"
  else if jsIncludes normalized "EUR" then "EUR"
  else if jsIncludes normalized "GBP" then "GBP"
  else "KES"

/-! ## Parsed records and the parser service
(`services/sms/sms-parser.service.ts`)

`ParsedSms` is the source's discriminated union over dialect kinds; the
extraction helpers are the `parseXxx` builders.  The date helpers in the
model are total — the branches where the source would throw (and the
parser's `try`/`catch` would skip the pattern) are unreachable from the
capture shapes — so a matched pattern always yields a record, exactly as
in the source. -/

inductive SmsPatternType where
  | mpesa_send | mpesa_paybill | mpesa_paybill_alt | mpesa_till
  | mpesa_airtime | mpesa_agent | mpesa_received | bank_transfer
  | bank_confirmation | card_transaction | fuliza | fuliza_repayment
  | fuliza_auto_repayment | mshwari_transfer | unknown
deriving DecidableEq, Repr

inductive TxType where
  | income | expense | debt | debt_repayment | transfer
deriving DecidableEq, Repr

inductive ParsedSms where
  | mpesa_send (refCode : String) (amount : JSNum) (currency : String)
      (recipient : String) (phone : Option String)
      (transactionDate : DateV) (balance : Option JSNum)
      (fee : Option JSNum) (rawBody : String)
  | mpesa_paybill (refCode : String) (amount : JSNum) (currency : String)
      (paybillName : String) (account : String) (transactionDate : DateV)
      (balance : Option JSNum) (fee : Option JSNum) (rawBody : String)
  | mpesa_till (refCode : String) (amount : JSNum) (currency : String)
      (tillName : String) (tillNumber : String) (transactionDate : DateV)
      (rawBody : String)
  | mpesa_airtime (refCode : String) (amount : JSNum) (currency : String)
      (transactionDate : DateV) (balance : Option JSNum) (rawBody : String)
  | mpesa_agent (refCode : String) (amount : JSNum) (currency : String)
      (agentName : String) (transactionDate : DateV)
      (balance : Option JSNum) (rawBody : String)
  | mpesa_received (refCode : String) (amount : JSNum) (currency : String)
      (sender : String) (phone : Option String) (transactionDate : DateV)
      (rawBody : String)
  | bank_transfer (refCode : String) (amount : JSNum) (currency : String)
      (sender : String) (bankRef : Option String) (transactionDate : DateV)
      (rawBody : String)
  | bank_confirmation (refCode : String) (amount : JSNum)
      (currency : String) (business : String) (account : String)
      (transactionDate : DateV) (rawBody : String)
  | card_transaction (refCode : String) (amount : JSNum)
      (currency : String) (bank : String) (cardMask : String)
      (merchant : String) (transactionDate : DateV)
      (balance : Option JSNum) (balanceCurrency : Option String)
      (rawBody : String)
  | fuliza (refCode : String) (amount : JSNum) (currency : String)
      (principal : JSNum) (fee : JSNum) (totalOutstanding : JSNum)
      (dueDate : DateV) (transactionDate : DateV) (rawBody : String)
  | fuliza_repayment (refCode : String) (amount : JSNum)
      (currency : String) (amountRepaid : JSNum) (transactionDate : DateV)
      (rawBody : String)
  | fuliza_auto_repayment (refCode : String) (amount : JSNum)
      (currency : String) (amountRepaid : JSNum) (paymentType : String)
      (availableLimit : JSNum) (balance : JSNum) (transactionDate : DateV)
      (rawBody : String)
  | mshwari_transfer (refCode : String) (amount : JSNum)
      (currency : String) (transactionDate : DateV)
      (shwariBalance : Option JSNum) (mpesaBalance : Option JSNum)
      (rawBody : String)
deriving DecidableEq, Repr

/-- `PATTERNS` from `constants/sms-patterns.ts` — the precedence-ordered
dialect list, transcribed in source order. -/
def PATTERNS : List (SmsPatternType × SPattern × TxType) := [
  (.fuliza, FULIZA_PATTERN, .debt),
  (.fuliza_auto_repayment, FULIZA_AUTO_REPAYMENT_PATTERN, .debt_repayment),
  (.fuliza_repayment, FULIZA_REPAYMENT_PATTERN, .debt_repayment),
  (.mshwari_transfer, MSHWARI_TRANSFER_PATTERN, .transfer),
  (.mpesa_received, MPESA_RECEIVED_PATTERN, .income),
  (.bank_transfer, BANK_TRANSFER_PATTERN, .income),
  (.mpesa_airtime, MPESA_AIRTIME_PATTERN, .expense),
  (.mpesa_agent, MPESA_AGENT_PATTERN, .expense),
  (.mpesa_till, MPESA_TILL_PATTERN, .expense),
  (.mpesa_paybill_alt, MPESA_PAYBILL_ALT_PATTERN, .expense),
  (.mpesa_paybill, MPESA_PAYBILL_PATTERN, .expense),
  (.mpesa_send, MPESA_SEND_PATTERN, .expense),
  (.bank_confirmation, BANK_CONFIRMATION_PATTERN, .expense),
  (.card_transaction, CARD_TRANSACTION_PATTERN, .expense)]

/-- `groups.name ? parseAmountToCents(groups.name) : undefined`. -/
def optAmount (caps : Caps) (name : String) : Option JSNum :=
  let g := getGroup caps name
  if capTruthy g then some (parseAmountToCents (g.getD "")) else none

/-- `.replace(/\.$/, '')` — drop one trailing period. -/
def dropTrailingDot (s : String) : String :=
  match s.data.reverse with
  | '.' :: rest => String.mk rest.reverse
  | _ => s

/-- `extractData` of `SmsParserService`: build the record for a matched
pattern (`null` only for an unrecognized tag). -/
def extractData (now : ℤ) (t : SmsPatternType) (caps : Caps)
    (rawBody : String) : Option ParsedSms :=
  match t with
  | .mpesa_send => some (.mpesa_send (reqGroup caps "refCode")
      (parseAmountToCents (reqGroup caps "amount")) "KES"
      (dropTrailingDot (jsTrim (reqGroup caps "recipient")))
      (getGroup caps "phone")
      (parseSmsDate (reqGroup caps "date") (getGroup caps "time"))
      (optAmount caps "balance") (optAmount caps "fee") rawBody)
  | .mpesa_paybill | .mpesa_paybill_alt => some (.mpesa_paybill
      (reqGroup caps "refCode")
      (parseAmountToCents (reqGroup caps "amount")) "KES"
      (jsTrim (reqGroup caps "paybillName")) (reqGroup caps "account")
      (parseSmsDate (reqGroup caps "date") (getGroup caps "time"))
      (optAmount caps "balance") (optAmount caps "fee") rawBody)
  | .mpesa_till => some (.mpesa_till (reqGroup caps "refCode")
      (parseAmountToCents (reqGroup caps "amount")) "KES"
      (jsTrim (reqGroup caps "tillName")) (reqGroup caps "tillNumber")
      (parseTillDate (reqGroup caps "date") (getGroup caps "time"))
      rawBody)
  | .mpesa_airtime => some (.mpesa_airtime (reqGroup caps "refCode")
      (parseAmountToCents (reqGroup caps "amount")) "KES"
      (parseSmsDate (reqGroup caps "date") (getGroup caps "time"))
      (optAmount caps "balance") rawBody)
  | .mpesa_agent => some (.mpesa_agent (reqGroup caps "refCode")
      (parseAmountToCents (reqGroup caps "amount")) "KES"
      (jsTrim (reqGroup caps "agentName"))
      (parseSmsDate (reqGroup caps "date") (getGroup caps "time"))
      (optAmount caps "balance") rawBody)
  | .mpesa_received => some (.mpesa_received (reqGroup caps "refCode")
      (parseAmountToCents (reqGroup caps "amount")) "KES"
      (jsTrim (reqGroup caps "sender")) (getGroup caps "phone")
      (parseSmsDate (reqGroup caps "date") (getGroup caps "time"))
      rawBody)
  | .bank_transfer => some (.bank_transfer (reqGroup caps "mpesaRef")
      (parseAmountToCents (reqGroup caps "amount")) "KES"
      (jsTrim (reqGroup caps "sender")) (getGroup caps "bankRef")
      (.epoch now) rawBody)
  | .bank_confirmation => some (.bank_confirmation
      (reqGroup caps "refCode")
      (parseAmountToCents (reqGroup caps "amount")) "KES"
      (jsTrim (reqGroup caps "business")) (reqGroup caps "account")
      (parseSmsDate (reqGroup caps "date") (getGroup caps "time"))
      rawBody)
  | .card_transaction => some (.card_transaction
      ("CARD-" ++ toString now)
      (parseAmountToCents (reqGroup caps "amount"))
      (parseCurrency (reqGroup caps "currency")) (reqGroup caps "bank")
      (reqGroup caps "cardMask") (jsTrim (reqGroup caps "merchant"))
      (parseSmsDate (reqGroup caps "date") (getGroup caps "time"))
      (optAmount caps "balance") (getGroup caps "balanceCurrency")
      rawBody)
  | .fuliza => some (.fuliza (reqGroup caps "refCode")
      (parseAmountToCents (reqGroup caps "principal")) "KES"
      (parseAmountToCents (reqGroup caps "principal"))
      (parseAmountToCents (reqGroup caps "fee"))
      (parseAmountToCents (reqGroup caps "totalOutstanding"))
      (parseFulizaDueDate (reqGroup caps "dueDate")) (.epoch now) rawBody)
  | .fuliza_repayment => some (.fuliza_repayment (reqGroup caps "refCode")
      (parseAmountToCents (reqGroup caps "amount")) "KES"
      (parseAmountToCents (reqGroup caps "amount")) (.epoch now) rawBody)
  | .fuliza_auto_repayment => some (.fuliza_auto_repayment
      (reqGroup caps "refCode")
      (parseAmountToCents (reqGroup caps "amount")) "KES"
      (parseAmountToCents (reqGroup caps "amount"))
      (jsToLower (reqGroup caps "paymentType"))
      (parseAmountToCents (reqGroup caps "availableLimit"))
      (parseAmountToCents (reqGroup caps "balance")) (.epoch now) rawBody)
  | .mshwari_transfer => some (.mshwari_transfer (reqGroup caps "refCode")
      (parseAmountToCents (reqGroup caps "amount")) "KES"
      (parseSmsDate (reqGroup caps "date") (getGroup caps "time"))
      (optAmount caps "shwariBalance") (optAmount caps "mpesaBalance")
      rawBody)
  | .unknown => none

/-- `ParseResult` of `SmsParserService`. -/
structure ParseResult where
  success : Bool
  data : Option ParsedSms
  patternType : SmsPatternType
  transactionType : Option TxType
  error : Option String
deriving DecidableEq, Repr

/-- The pattern loop of `parseMessage`: first successful match wins. -/
def parseMessageGo (now : ℤ) (normalized rawBody : String) :
    List (SmsPatternType × SPattern × TxType) → ParseResult
  | [] => ⟨false, none, .unknown, none, some "No matching pattern found"⟩
  | (t, p, tt) :: rest =>
    match jsMatch p normalized with
    | some hit =>
      match extractData now t hit.caps rawBody with
      | some parsed => ⟨true, some parsed, t, some tt, none⟩
      | none => parseMessageGo now normalized rawBody rest
    | none => parseMessageGo now normalized rawBody rest

/-- `SmsParserService.parseMessage`: normalize line-wrapped reference
codes, then try each pattern in precedence order. -/
def parseMessage (now : ℤ) (body : String) : ParseResult :=
  parseMessageGo now (normalizeBody body) body PATTERNS

/-- `ParsedSms` reference code (`parsed.refCode`). -/
def ParsedSms.refCode : ParsedSms → String
  | .mpesa_send r _ _ _ _ _ _ _ _ => r
  | .mpesa_paybill r _ _ _ _ _ _ _ _ => r
  | .mpesa_till r _ _ _ _ _ _ => r
  | .mpesa_airtime r _ _ _ _ _ => r
  | .mpesa_agent r _ _ _ _ _ _ => r
  | .mpesa_received r _ _ _ _ _ _ => r
  | .bank_transfer r _ _ _ _ _ _ => r
  | .bank_confirmation r _ _ _ _ _ _ => r
  | .card_transaction r _ _ _ _ _ _ _ _ _ => r
  | .fuliza r _ _ _ _ _ _ _ _ => r
  | .fuliza_repayment r _ _ _ _ _ => r
  | .fuliza_auto_repayment r _ _ _ _ _ _ _ _ => r
  | .mshwari_transfer r _ _ _ _ _ _ => r

/-- `parsed.amount`. -/
def ParsedSms.amount : ParsedSms → JSNum
  | .mpesa_send _ a _ _ _ _ _ _ _ => a
  | .mpesa_paybill _ a _ _ _ _ _ _ _ => a
  | .mpesa_till _ a _ _ _ _ _ => a
  | .mpesa_airtime _ a _ _ _ _ => a
  | .mpesa_agent _ a _ _ _ _ _ => a
  | .mpesa_received _ a _ _ _ _ _ => a
  | .bank_transfer _ a _ _ _ _ _ => a
  | .bank_confirmation _ a _ _ _ _ _ => a
  | .card_transaction _ a _ _ _ _ _ _ _ _ => a
  | .fuliza _ a _ _ _ _ _ _ _ => a
  | .fuliza_repayment _ a _ _ _ _ => a
  | .fuliza_auto_repayment _ a _ _ _ _ _ _ _ => a
  | .mshwari_transfer _ a _ _ _ _ _ => a

/-- `parsed.currency`. -/
def ParsedSms.currency : ParsedSms → String
  | .mpesa_send _ _ c _ _ _ _ _ _ => c
  | .mpesa_paybill _ _ c _ _ _ _ _ _ => c
  | .mpesa_till _ _ c _ _ _ _ => c
  | .mpesa_airtime _ _ c _ _ _ => c
  | .mpesa_agent _ _ c _ _ _ _ => c
  | .mpesa_received _ _ c _ _ _ _ => c
  | .bank_transfer _ _ c _ _ _ _ => c
  | .bank_confirmation _ _ c _ _ _ _ => c
  | .card_transaction _ _ c _ _ _ _ _ _ _ => c
  | .fuliza _ _ c _ _ _ _ _ _ => c
  | .fuliza_repayment _ _ c _ _ _ => c
  | .fuliza_auto_repayment _ _ c _ _ _ _ _ _ => c
  | .mshwari_transfer _ _ c _ _ _ _ => c

/-- `parsed.transactionDate`. -/
def ParsedSms.transactionDate : ParsedSms → DateV
  | .mpesa_send _ _ _ _ _ d _ _ _ => d
  | .mpesa_paybill _ _ _ _ _ d _ _ _ => d
  | .mpesa_till _ _ _ _ _ d _ => d
  | .mpesa_airtime _ _ _ d _ _ => d
  | .mpesa_agent _ _ _ _ d _ _ => d
  | .mpesa_received _ _ _ _ _ d _ => d
  | .bank_transfer _ _ _ _ _ d _ => d
  | .bank_confirmation _ _ _ _ _ d _ => d
  | .card_transaction _ _ _ _ _ _ d _ _ _ => d
  | .fuliza _ _ _ _ _ _ _ d _ => d
  | .fuliza_repayment _ _ _ _ d _ => d
  | .fuliza_auto_repayment _ _ _ _ _ _ _ d _ => d
  | .mshwari_transfer _ _ _ d _ _ _ => d

/-- `SmsParserService.isPerson`: a counterparty with a captured phone
number. -/
def isPersonParsed : ParsedSms → Bool
  | .mpesa_send _ _ _ _ phone _ _ _ _ => capTruthy phone
  | .mpesa_received _ _ _ _ phone _ _ => capTruthy phone
  | _ => false

/-- `SmsParserService.getCounterparty`. -/
def getCounterparty : ParsedSms → String
  | .mpesa_send _ _ _ recipient _ _ _ _ _ => recipient
  | .mpesa_paybill _ _ _ paybillName _ _ _ _ _ => paybillName
  | .mpesa_till _ _ _ tillName _ _ _ => tillName
  | .mpesa_airtime _ _ _ _ _ _ => "Airtime"
  | .mpesa_agent _ _ _ agentName _ _ _ => agentName
  | .mpesa_received _ _ _ sender _ _ _ => sender
  | .bank_transfer _ _ _ sender _ _ _ => sender
  | .bank_confirmation _ _ _ business _ _ _ => business
  | .card_transaction _ _ _ _ _ merchant _ _ _ _ => merchant
  | .fuliza _ _ _ _ _ _ _ _ _ => "Fuliza M-Pesa"
  | .fuliza_repayment _ _ _ _ _ _ => "Fuliza M-Pesa"
  | .fuliza_auto_repayment _ _ _ _ _ _ _ _ _ => "Fuliza M-Pesa"
  | .mshwari_transfer _ _ _ _ _ _ _ => "M-Shwari"

/-- `SmsParserService.getPhone`. -/
def getPhoneParsed : ParsedSms → Option String
  | .mpesa_send _ _ _ _ phone _ _ _ _ => phone
  | .mpesa_received _ _ _ _ phone _ _ => phone
  | _ => none

/-- The fields of `ParsedFuliza` that the debt service reads. -/
structure ParsedFuliza where
  refCode : String
  principal : JSNum
  fee : JSNum
  totalOutstanding : JSNum
  dueDate : DateV
deriving DecidableEq, Repr

/-- The fields of `ParsedFulizaRepayment` that the debt service reads. -/
structure ParsedFulizaRepayment where
  refCode : String
  amountRepaid : JSNum
deriving DecidableEq, Repr

/-- The listener's `parseResult.data as ParsedFuliza` cast (reached only
behind the `patternType === 'fuliza'` guard; any other variant would read
`undefined` fields, modelled by NaN/junk). -/
def ParsedSms.asFuliza : ParsedSms → ParsedFuliza
  | .fuliza r _ _ principal fee totalOutstanding dueDate _ _ =>
    ⟨r, principal, fee, totalOutstanding, dueDate⟩
  | p => ⟨p.refCode, none, none, none, .epoch 0⟩

/-- The listener's `parseResult.data as ParsedFulizaRepayment` cast
(reached only behind the `patternType === 'fuliza_repayment'` guard). -/
def ParsedSms.asFulizaRepayment : ParsedSms → ParsedFulizaRepayment
  | .fuliza_repayment r _ _ amountRepaid _ _ => ⟨r, amountRepaid⟩
  | p => ⟨p.refCode, none⟩

/-! ## Relational state (`db/schema.ts` / `db/index.ts`)

Tables as in-memory lists in insertion order (SQLite rowid order, which is
what the source's unordered selects observe); a fresh id is the current
row count plus one. -/

inductive ParseStatus where
  | pending | parsed | failed | ignored
deriving DecidableEq, Repr

inductive TxStatus where
  | pending_classification | classified | archived | duplicate
deriving DecidableEq, Repr

inductive DebtStatus where
  | active | partially_paid | paid | overdue | written_off
deriving DecidableEq, Repr

inductive DebtType where
  | fuliza | owed_to_person | owed_by_person
deriving DecidableEq, Repr

inductive SourceType where
  | mpesa | bank | card | cash_manual
deriving DecidableEq, Repr

inductive SenderType where
  | mpesa | bank | card | unknown
deriving DecidableEq, Repr

structure RawSmsRow where
  id : ℕ
  sender : String
  body : String
  receivedAt : ℤ
  parsedAt : Option ℤ
  parseStatus : ParseStatus
  parseError : Option String
  linkedRefCode : Option String
deriving DecidableEq, Repr

structure TxRow where
  id : ℕ
  primaryRefCode : String
  type : TxType
  source : SourceType
  amount : JSNum
  currency : String
  fee : JSNum
  counterparty : Option String
  counterpartyPhone : Option String
  counterpartyAccount : Option String
  categoryId : Option ℕ
  isAutoClassified : Bool
  confidence : Option ℚ
  balanceAfter : Option JSNum
  transactionDate : DateV
  rawSmsId : Option ℕ
  status : TxStatus
deriving DecidableEq, Repr

structure DebtRow where
  id : ℕ
  type : DebtType
  source : Option String
  principalAmount : JSNum
  feesCharged : JSNum
  totalOutstanding : JSNum
  lastUpdatedAmount : Option JSNum
  createdDate : DateV
  dueDate : Option DateV
  counterparty : Option String
  counterpartyPhone : Option String
  status : DebtStatus
  originalTransactionId : Option ℕ
  notes : Option String
  updatedAt : DateV
deriving DecidableEq, Repr

structure DebtPaymentRow where
  id : ℕ
  debtId : ℕ
  transactionId : Option ℕ
  amount : JSNum
  paymentDate : DateV
  notes : Option String
deriving DecidableEq, Repr

structure RelatedMessageRow where
  id : ℕ
  primarySmsId : ℕ
  secondarySmsId : ℕ
  refCode : String
  transactionId : Option ℕ
deriving DecidableEq, Repr

structure CategoryRow where
  id : ℕ
  name : String
deriving DecidableEq, Repr

structure DB where
  rawSms : List RawSmsRow := []
  transactions : List TxRow := []
  debts : List DebtRow := []
  debtPayments : List DebtPaymentRow := []
  relatedMessages : List RelatedMessageRow := []
  categories : List CategoryRow := []
deriving DecidableEq, Repr

/-! ## Sender classification and message filter
(`constants/sms-patterns.ts`, `services/sms/sms-filter.service.ts`) -/

def FINANCIAL_SENDERS : List String :=
  ["MPESA", "M-PESA", "SAFARICOM", "KCB", "KCBMPESA", "EQUITEL", "EQUITY",
   "COOP", "COOPERATIVE", "CO-OPERATIVE", "ABSA", "NCBA", "STANBIC", "DTB",
   "FAMILY", "I&M", "SIDIAN", "HF", "ECOBANK", "STANDARD", "PRIME",
   "CREDIT"]

/-- `getSenderType` from `constants/sms-patterns.ts`. -/
def getSenderType (sender : String) : SenderType :=
  let normalized := jsTrim (jsToUpper sender)
  if jsIncludes normalized "MPESA" || jsIncludes normalized "M-PESA" then
    .mpesa
  else if FINANCIAL_SENDERS.any
      (fun s => jsIncludes normalized s && !jsIncludes normalized "MPESA")
    then .bank
  else .unknown

/-- `isFinancialSender` from `constants/sms-patterns.ts`. -/
def isFinancialSender (sender : String) : Bool :=
  FINANCIAL_SENDERS.any (fun s => jsIncludes (jsTrim (jsToUpper sender)) s)

def FAILED_KEYWORDS : List String :=
  ["failed", "not completed", "was not successful", "unsuccessful",
   "rejected", "cancelled", "canceled", "could not be processed",
   "insufficient balance", "insufficient funds", "limit exceeded",
   "wrong pin", "incorrect pin", "expired", "timed out", "declined"]

/-- `SmsFilterService.isFailedTransaction`. -/
def isFailedTransaction (body : String) : Bool :=
  FAILED_KEYWORDS.any (fun k => jsIncludes (jsToLower body) k)

def FINANCIAL_KEYWORDS : List String :=
  ["Confirmed", "Ksh", "KES", "sent to", "received", "transferred",
   "transaction", "balance", "M-PESA", "MPESA", "Fuliza", "card",
   "paybill"]

/-- `SmsFilterService.hasFinancialKeywords`. -/
def hasFinancialKeywords (body : String) : Bool :=
  FINANCIAL_KEYWORDS.any
    (fun k => jsIncludes (jsToUpper body) (jsToUpper k))

/-- `SmsFilterService.shouldProcess`. -/
def shouldProcess (sender body : String) : Bool :=
  isFinancialSender sender || hasFinancialKeywords body

/-- The success-branch statistics counters of
`SmsReaderService.readAllSms`. -/
structure ImportStats where
  mpesa : ℕ
  bank : ℕ
  card : ℕ
  fuliza : ℕ
deriving DecidableEq, Repr

/-- The per-message statistics update in the success branch of
`readAllSms` (switch on the sender type, with the Fuliza body check). -/
def updateImportStats (stats : ImportStats) (sender body : String) :
    ImportStats :=
  match getSenderType sender with
  | .mpesa =>
    if jsIncludes (jsToLower body) "fuliza" then
      { stats with fuliza := stats.fuliza + 1 }
    else { stats with mpesa := stats.mpesa + 1 }
  | .bank => { stats with bank := stats.bank + 1 }
  | .card => { stats with card := stats.card + 1 }
  | .unknown => stats

/-- Folding the statistics update over the processed messages, from the
zero-initialized result record of `readAllSms`. -/
def importStatsLoop (msgs : List (String × String)) : ImportStats :=
  msgs.foldl (fun st m => updateImportStats st m.1 m.2) ⟨0, 0, 0, 0⟩

/-! ## The debt service (`services/debt.service.ts`) -/

/-- The draw handler's lookup: `type = 'fuliza' and status = 'active'`. -/
def findFulizaActive (debts : List DebtRow) : Option DebtRow :=
  debts.find? (fun d => decide (d.type = .fuliza ∧ d.status = .active))

/-- The repayment handler's lookup:
`type = 'fuliza' and status in ('active', 'partially_paid')`. -/
def findFulizaRepayTarget (debts : List DebtRow) : Option DebtRow :=
  debts.find? (fun d => decide (d.type = .fuliza ∧
    (d.status = .active ∨ d.status = .partially_paid)))

/-- `DebtService.getFulizaCategoryId`. -/
def getFulizaCategoryId (db : DB) : Option ℕ :=
  (db.categories.find? (fun c => c.name == "Fuliza")).map (·.id)

/-- `DebtService.processFulizaMessage`: update the active Fuliza debt in
place, or create one; then record a classified `debt` Transaction. -/
def processFulizaMessage (now : ℤ) (parsed : ParsedFuliza) (rawSmsId : ℕ)
    (db : DB) : DB :=
  let db1 : DB :=
    match findFulizaActive db.debts with
    | some existingDebt =>
      { db with debts := db.debts.map (fun d =>
          if d.id = existingDebt.id then
            { d with
                totalOutstanding := parsed.totalOutstanding
                lastUpdatedAmount := some parsed.principal
                feesCharged := jadd (jorZero existingDebt.feesCharged)
                  parsed.fee
                dueDate := some parsed.dueDate
                updatedAt := .epoch now }
          else d) }
    | none =>
      { db with debts := db.debts ++ [{
          id := db.debts.length + 1
          type := .fuliza
          source := some "M-Pesa Fuliza"
          principalAmount := parsed.principal
          feesCharged := parsed.fee
          totalOutstanding := parsed.totalOutstanding
          lastUpdatedAmount := none
          createdDate := .epoch now
          dueDate := some parsed.dueDate
          counterparty := none
          counterpartyPhone := none
          status := .active
          originalTransactionId := none
          notes := none
          updatedAt := .epoch now }] }
  { db1 with transactions := db1.transactions ++ [{
      id := db1.transactions.length + 1
      primaryRefCode := parsed.refCode
      type := .debt
      source := .mpesa
      amount := parsed.principal
      currency := "KES"
      fee := parsed.fee
      counterparty := some "Fuliza M-Pesa"
      counterpartyPhone := none
      counterpartyAccount := none
      categoryId := getFulizaCategoryId db1
      isAutoClassified := true
      confidence := some 1
      balanceAfter := none
      transactionDate := .epoch now
      rawSmsId := some rawSmsId
      status := .classified }] }

/-- `DebtService.processFulizaRepayment`: drop the event with a warning
when no active/partially-paid Fuliza debt exists; otherwise record a
DebtPayment, clamp the outstanding at zero, move the status, and record a
classified `debt_repayment` Transaction. -/
def processFulizaRepayment (now : ℤ) (parsed : ParsedFulizaRepayment)
    (rawSmsId : ℕ) (db : DB) : DB :=
  match findFulizaRepayTarget db.debts with
  | none => db
  | some activeDebt =>
    let db1 : DB := { db with debtPayments := db.debtPayments ++ [{
        id := db.debtPayments.length + 1
        debtId := activeDebt.id
        transactionId := none
        amount := parsed.amountRepaid
        paymentDate := .epoch now
        notes := some "Auto-detected Fuliza repayment" }] }
    let newOutstanding :=
      jmax0 (jsub activeDebt.totalOutstanding parsed.amountRepaid)
    let db2 : DB := { db1 with debts := db1.debts.map (fun d =>
        if d.id = activeDebt.id then
          { d with
              totalOutstanding := newOutstanding
              status :=
                if jleZero newOutstanding then .paid else .partially_paid
              updatedAt := .epoch now }
        else d) }
    { db2 with transactions := db2.transactions ++ [{
        id := db2.transactions.length + 1
        primaryRefCode := parsed.refCode
        type := .debt_repayment
        source := .mpesa
        amount := parsed.amountRepaid
        currency := "KES"
        fee := some 0
        counterparty := some "Fuliza M-Pesa"
        counterpartyPhone := none
        counterpartyAccount := none
        categoryId := getFulizaCategoryId db2
        isAutoClassified := true
        confidence := some 1
        balanceAfter := none
        transactionDate := .epoch now
        rawSmsId := some rawSmsId
        status := .classified }] }

/-- A debt that the overdue sweep will transition: active or
partially-paid, with a due date that has passed. -/
def debtDueOverdue (now : ℤ) (d : DebtRow) : Bool :=
  decide (d.status = .active ∨ d.status = .partially_paid) &&
    (match d.dueDate with
     | some dd => isOverdue dd now
     | none => false)

/-- `DebtService.checkOverdueDebts`: transition every active or
partially-paid debt whose due date has passed to `overdue`, returning the
transitioned rows. -/
def checkOverdueDebts (now : ℤ) (db : DB) : DB × List DebtRow :=
  let updated : List DebtRow := db.debts.map (fun d =>
    if debtDueOverdue now d then
      { d with status := .overdue, updatedAt := .epoch now }
    else d)
  let overdueList := (db.debts.filter (debtDueOverdue now ·)).map
    (fun d => { d with status := DebtStatus.overdue })
  ({ db with debts := updated }, overdueList)

/-- The debt events that the reconciler applies to the store, for
replaying whole histories. -/
inductive FulizaEvent where
  | draw (p : ParsedFuliza)
  | repay (p : ParsedFulizaRepayment)
  | sweep
deriving DecidableEq, Repr

def applyFulizaEvent (now : ℤ) (db : DB) : FulizaEvent → DB
  | .draw p => processFulizaMessage now p 0 db
  | .repay p => processFulizaRepayment now p 0 db
  | .sweep => (checkOverdueDebts now db).1

/-- Replay a history of Fuliza events from an empty store. -/
def replayFuliza (now : ℤ) (events : List FulizaEvent) : DB :=
  events.foldl (applyFulizaEvent now) {}

/-- Number of Fuliza debts whose status is exactly `active`. -/
def countActiveFuliza (db : DB) : ℕ :=
  db.debts.countP (fun d => decide (d.type = .fuliza ∧ d.status = .active))

/-- Number of Fuliza debts whose status is `active` or `partially_paid`
(the spec's at-most-one set). -/
def countOpenFuliza (db : DB) : ℕ :=
  db.debts.countP (fun d => decide (d.type = .fuliza ∧
    (d.status = .active ∨ d.status = .partially_paid)))

/-! ## The reference linker
(`services/sms/reference-linker.service.ts`) -/

structure MergedTransactionData where
  refCode : String
  amount : JSNum
  counterparty : String
  transactionDate : DateV
  account : Option String
  fee : Option JSNum
  sources : List (ℕ × String)
deriving DecidableEq, Repr

structure RelatedMessageGroup where
  merged : MergedTransactionData
  originalMessages : List (ℕ × String × String)
deriving DecidableEq, Repr

/-- JS `a || b` on strings (empty string is falsy). -/
def jsOrStr (a b : String) : String :=
  if a = "" then b else a

/-- JS `a || b` on amounts (0 and NaN are falsy). -/
def jsOrNum (a b : JSNum) : JSNum :=
  match a with
  | some v => if v = 0 then b else some v
  | none => b

/-- JS `a || b` where `a` is an optional string field. -/
def jsOrOptStr (a b : Option String) : Option String :=
  match a with
  | some s => if s = "" then b else some s
  | none => b

/-- Stable ascending insertion by `receivedAt` (Array.prototype.sort with
`(a, b) => a.receivedAt - b.receivedAt` is a stable sort). -/
def insertByReceived (x : RawSmsRow) : List RawSmsRow → List RawSmsRow
  | [] => [x]
  | y :: ys =>
    if y.receivedAt ≤ x.receivedAt then y :: insertByReceived x ys
    else x :: y :: ys

def sortByReceived (l : List RawSmsRow) : List RawSmsRow :=
  l.foldl (fun acc x => insertByReceived x acc) []

/-- One iteration of the merge loop of
`ReferenceLinkingService.mergeRelatedMessages`: re-parse the message and
fold its fields into the accumulator under the source-priority rule.  The
`sources` entry is pushed whether or not the parse succeeded. -/
def mergeStep (now : ℤ) (merged : MergedTransactionData)
    (msg : RawSmsRow) : MergedTransactionData :=
  let parseResult := parseMessage now msg.body
  let m1 :=
    match parseResult.success, parseResult.data with
    | true, some parsed =>
      match parsed with
      | .mpesa_send rc amount _ recipient _ txDate _ fee _ =>
        { merged with
            refCode := rc
            amount := amount
            transactionDate := txDate
            counterparty := recipient
            fee := fee }
      | .mpesa_paybill rc amount _ paybillName account txDate _ fee _ =>
        { merged with
            refCode := rc
            amount := amount
            transactionDate := txDate
            counterparty := paybillName
            account := some account
            fee := fee }
      | .mpesa_received rc amount _ sender _ txDate _ =>
        { merged with
            refCode := rc
            amount := amount
            transactionDate := txDate
            counterparty := sender }
      | .bank_confirmation _ _ _ business account _ _ =>
        let m2 :=
          if business ≠ "" ∧ merged.counterparty.length < business.length
            then { merged with counterparty := business }
          else merged
        { m2 with account :=
            if account ≠ "" then some account else m2.account }
      | .bank_transfer rc amount _ sender _ _ _ =>
        { merged with
            refCode := jsOrStr rc merged.refCode
            amount := jsOrNum merged.amount amount
            counterparty := jsOrStr merged.counterparty sender }
      | _ => merged
    | _, _ => merged
  { m1 with sources := m1.sources ++ [(msg.id, msg.sender)] }

/-- `ReferenceLinkingService.mergeRelatedMessages`: sort the group by
received time, then fold the priority merge from a blank record. -/
def mergeRelatedMessages (now : ℤ) (messages : List RawSmsRow) :
    RelatedMessageGroup :=
  let init : MergedTransactionData := ⟨"", some 0, "", .epoch now, none,
    none, []⟩
  let merged := (sortByReceived messages).foldl (mergeStep now) init
  ⟨merged, messages.map (fun m => (m.id, m.sender, m.body))⟩

/-- The parsed dialects the merge loop of `mergeRelatedMessages` treats
as the primary M-Pesa channel: its `mpesa_send`, `mpesa_paybill` and
`mpesa_received` cases, which overwrite the accumulator's amount, date
and counterparty unconditionally. -/
def isMpesaPrimary : ParsedSms → Bool
  | .mpesa_send _ _ _ _ _ _ _ _ _ => true
  | .mpesa_paybill _ _ _ _ _ _ _ _ _ => true
  | .mpesa_received _ _ _ _ _ _ _ => true
  | _ => false

/-- `ReferenceLinkingService.processAndLink`: extract codes, tag the raw
message, link to every already-tagged message (idempotently), and
re-derive the merge over the whole group.  The source destructures the
current message out of a select that cannot miss (it was inserted by the
caller); the impossible branch reuses the related list. -/
def processAndLink (now : ℤ) (smsId : ℕ) (body : String) (db : DB) :
    DB × Option RelatedMessageGroup :=
  match extractRefCodes body with
  | [] => (db, none)
  | primaryRefCode :: _ =>
    let db1 : DB := { db with rawSms := db.rawSms.map (fun r =>
        if r.id = smsId then { r with linkedRefCode := some primaryRefCode }
        else r) }
    let related := db1.rawSms.filter (fun r =>
      decide (r.linkedRefCode = some primaryRefCode ∧ r.id ≠ smsId))
    if related.isEmpty then (db1, none)
    else
      let db2 : DB := related.foldl (fun (acc : DB) relatedSms =>
        let lo := min smsId relatedSms.id
        let hi := max smsId relatedSms.id
        if (acc.relatedMessages.find? (fun lk =>
            decide (lk.refCode = primaryRefCode ∧ lk.primarySmsId = lo ∧
              lk.secondarySmsId = hi))).isSome then acc
        else { acc with relatedMessages := acc.relatedMessages ++
            [⟨acc.relatedMessages.length + 1, lo, hi, primaryRefCode,
              none⟩] }) db1
      match db2.rawSms.find? (fun r => r.id == smsId) with
      | some currentSms =>
        (db2, some (mergeRelatedMessages now (currentSms :: related)))
      | none => (db2, some (mergeRelatedMessages now related))

/-! ## The SMS listener (`services/sms/sms-listener.service.ts`) -/

structure SmsProcessingResult where
  success : Bool
  rawSmsId : Option ℕ := none
  transactionId : Option ℕ := none
  isDuplicate : Option Bool := none
  needsClassification : Option Bool := none
  isPerson : Option Bool := none
  error : Option String := none
deriving DecidableEq, Repr

/-- `SmsListenerService.getSource` (the fall-through default of the
switch is `'mpesa'`, which also covers the explicit M-Pesa cases). -/
def getSource : ParsedSms → SourceType
  | .bank_transfer _ _ _ _ _ _ _ => .bank
  | .bank_confirmation _ _ _ _ _ _ _ => .bank
  | .card_transaction _ _ _ _ _ _ _ _ _ _ => .card
  | _ => .mpesa

/-- JS `x || 0` where `x` is an optional amount field. -/
def jorZeroOpt : Option JSNum → JSNum
  | some v => jorZero v
  | none => some 0

/-- `SmsListenerService.getFee`. -/
def getFeeTx : ParsedSms → JSNum
  | .mpesa_send _ _ _ _ _ _ _ fee _ => jorZeroOpt fee
  | .mpesa_paybill _ _ _ _ _ _ _ fee _ => jorZeroOpt fee
  | .fuliza _ _ _ _ fee _ _ _ _ => fee
  | _ => some 0

/-- `SmsListenerService.getAccount`. -/
def getAccountTx : ParsedSms → Option String
  | .mpesa_paybill _ _ _ _ account _ _ _ _ => some account
  | .bank_confirmation _ _ _ _ account _ _ => some account
  | _ => none

/-- `SmsListenerService.getBalance`. -/
def getBalanceTx : ParsedSms → Option JSNum
  | .mpesa_send _ _ _ _ _ _ balance _ _ => balance
  | .mpesa_paybill _ _ _ _ _ _ balance _ _ => balance
  | .card_transaction _ _ _ _ _ _ _ balance _ _ => balance
  | .mshwari_transfer _ _ _ _ _ mpesaBalance _ => mpesaBalance
  | _ => none

/-- `SmsListenerService.findExistingTransaction` (select by primary
reference code, limit 1). -/
def findExistingTransaction (refCode : String) (db : DB) : Option TxRow :=
  db.transactions.find? (fun t => t.primaryRefCode == refCode)

/-- `SmsListenerService.createTransaction`.  The caller guarantees
`parseResult.data` and `parseResult.transactionType` are present (the
source uses non-null assertions); the impossible branch inserts nothing. -/
def createTransaction (parseResult : ParseResult) (rawSmsId : ℕ)
    (merged : Option MergedTransactionData) (db : DB) :
    DB × ℕ × TxStatus :=
  match parseResult.data with
  | none => (db, 0, .pending_classification)
  | some parsed =>
    let counterparty := jsOrStr
      (match merged with | some m => m.counterparty | none => "")
      (getCounterparty parsed)
    let phone := getPhoneParsed parsed
    let tx : TxRow := {
      id := db.transactions.length + 1
      primaryRefCode := parsed.refCode
      type := parseResult.transactionType.getD .expense
      source := getSource parsed
      amount := parsed.amount
      currency := parsed.currency
      fee := getFeeTx parsed
      counterparty := some counterparty
      counterpartyPhone := phone
      counterpartyAccount := jsOrOptStr
        (match merged with | some m => m.account | none => none)
        (getAccountTx parsed)
      categoryId := none
      isAutoClassified := false
      confidence := none
      balanceAfter := getBalanceTx parsed
      transactionDate := parsed.transactionDate
      rawSmsId := some rawSmsId
      status := .pending_classification }
    ({ db with transactions := db.transactions ++ [tx] }, tx.id, tx.status)

/-- The repeated raw-SMS status update
(`parseStatus: 'parsed', parsedAt, linkedRefCode`). -/
def markParsed (db : DB) (rawId : ℕ) (refCode : String) (now : ℤ) : DB :=
  { db with rawSms := db.rawSms.map (fun r =>
      if r.id = rawId then
        { r with
            parseStatus := .parsed
            parsedAt := some now
            linkedRefCode := some refCode }
      else r) }

/-- `SmsListenerService.processIncomingSms` — the ingestion pipeline:
filter gate, failed-transaction gate, raw persist, parse, duplicate
check (with confirmation-name enrichment), Fuliza routing, transaction
creation. -/
def processIncomingSms (now : ℤ) (sender body : String) (timestamp : ℤ)
    (db : DB) : DB × SmsProcessingResult :=
  if ¬shouldProcess sender body then
    (db, { success := false, error := some "Not a financial SMS" })
  else if isFailedTransaction body then
    (db, { success := false, error := some "Failed transaction - skipped" })
  else
    let rawId := db.rawSms.length + 1
    let db1 : DB := { db with rawSms := db.rawSms ++ [{
        id := rawId
        sender := sender
        body := body
        receivedAt := timestamp
        parsedAt := none
        parseStatus := .pending
        parseError := none
        linkedRefCode := none }] }
    let parseResult := parseMessage now body
    match parseResult.success, parseResult.data with
    | true, some parsedData =>
      (match findExistingTransaction parsedData.refCode db1 with
      | some existingTransaction =>
        let db2 := (processAndLink now rawId body db1).1
        let db3 : DB :=
          if parseResult.patternType = .bank_confirmation ∧
              existingTransaction.source = .mpesa then
            match parsedData with
            | .bank_confirmation _ _ _ business account _ _ =>
              if business ≠ "" then
                { db2 with transactions := db2.transactions.map (fun t =>
                    if t.id = existingTransaction.id then
                      { t with
                          counterparty := some business
                          counterpartyAccount :=
                            if account ≠ "" then some account
                            else existingTransaction.counterpartyAccount }
                    else t) }
              else db2
            | _ => db2
          else db2
        let db4 := markParsed db3 rawId parsedData.refCode now
        (db4, { success := true
                rawSmsId := some rawId
                isDuplicate := some true })
      | none =>
        let linkRes := processAndLink now rawId body db1
        let db2 := linkRes.1
        if parseResult.patternType = .fuliza then
          let db3 := processFulizaMessage now parsedData.asFuliza rawId db2
          let db4 := markParsed db3 rawId parsedData.refCode now
          (db4, { success := true
                  rawSmsId := some rawId
                  needsClassification := some false })
        else if parseResult.patternType = .fuliza_repayment then
          let db3 := processFulizaRepayment now parsedData.asFulizaRepayment
            rawId db2
          let db4 := markParsed db3 rawId parsedData.refCode now
          (db4, { success := true
                  rawSmsId := some rawId
                  needsClassification := some false })
        else
          let ct := createTransaction parseResult rawId
            (linkRes.2.map (·.merged)) db2
          let db4 := markParsed ct.1 rawId parsedData.refCode now
          (db4, { success := true
                  rawSmsId := some rawId
                  transactionId := some ct.2.1
                  needsClassification :=
                    some (decide (ct.2.2 = .pending_classification))
                  isPerson := some (isPersonParsed parsedData) }))
    | _, _ =>
      let db2 : DB := { db1 with rawSms := db1.rawSms.map (fun r =>
          if r.id = rawId then
            { r with
                parseStatus := .failed
                parseError :=
                  some ((parseResult.error).getD "Unknown parse error")
                parsedAt := some now }
          else r) }
      (db2, { success := false
              rawSmsId := some rawId
              error := parseResult.error })

/-! ## Concrete fixtures

Real message shapes (after the documented dialect examples) and small
states, used by the concrete claim witnesses and counterexamples. -/

def cardBody : String :=
  "USD 19.00 transaction made on KCB card 5249***5733 at LARAVEL FORGE on 15/01/2026 16:08pm, Avail balance USD 100.00"

def autoRepayBody : String :=
  "UA33H2XD7S Confirmed. Ksh 60.00 from your M-PESA has been used to partially pay your outstanding Fuliza M-PESA. Fuliza M-PESA limit is Ksh 500.00. M-PESA balance is Ksh 0.00."

/-- A body the send dialect matches whose amount capture is the bare
thousands separator `\x7b,\x7d`, so the numeric field fails to parse. -/
def nanBody : String :=
  "AB12CD34EF Confirmed. Ksh , sent to JOHN DOE 0712345678 on 1/1/26 at 3:00 PM."

def paybillBody : String :=
  "UAF3H3ZJNR Confirmed. Ksh670.00 sent to KCB for account 123 on 3/1/26 at 7:41 PM."

def confBody : String :=
  "Dear LAWRENCE, you have sent Ksh. 671.00 to KCB BANK KENYA LIMITED for 123 on 03/01/2026 at 21:15. MPESA Ref. UAF3H3ZJNR"

def fulizaBody : String :=
  "UAH3H46G3P Confirmed. Fuliza M-Pesa amount is Ksh 716.62. Access Fee charged Ksh 7.17. Total Fuliza M-Pesa outstanding amount is Ksh 716.62 due on 17/01/26."

def sendBody : String :=
  "UAH3H46D7H Confirmed. Ksh330.00 sent to EDWARD KAMA 0718824980 on 17/1/26 at 5:34 AM. New M-PESA balance is Ksh1,500.00. Transaction cost, Ksh7.00."

/-- The parse of `sendBody` (checked by `decide` where used). -/
def sendParsed : ParsedSms :=
  .mpesa_send "UAH3H46D7H" (some 33000) "KES" "EDWARD KAMA"
    (some "0718824980") (.comp 2026 0 17 5 34 0) (some (some 150000))
    (some (some 700)) sendBody

/-- An active Fuliza debt row. -/
def fulizaDebtRow : DebtRow :=
  ⟨1, .fuliza, some "M-Pesa Fuliza", some 50000, some 1000, some 100000,
    none, .epoch 0, some (.epoch 999999), none, none, .active, none, none,
    .epoch 0⟩

/-- An active Fuliza debt row whose due date (epoch 100) has passed. -/
def fulizaDebtDue : DebtRow :=
  ⟨1, .fuliza, some "M-Pesa Fuliza", some 50000, some 1000, some 71662,
    none, .epoch 0, some (.epoch 100), none, none, .active, none, none,
    .epoch 0⟩

/-- A store already holding a transaction under `sendBody`'s reference
code. -/
def dbWithSendTx : DB :=
  { transactions := [⟨1, "UAH3H46D7H", .expense, .mpesa, some 33000, "KES",
      some 700, some "EDWARD KAMA", some "0718824980", none, none, false,
      none, some (some 150000), .comp 2026 0 17 5 34 0, some 1,
      .pending_classification⟩] }

def cardRun1 : DB × SmsProcessingResult :=
  processIncomingSms 1000 "KCB" cardBody 500 {}

def cardRun2 : DB × SmsProcessingResult :=
  processIncomingSms 2000 "KCB" cardBody 500 cardRun1.1

def autoRun : DB × SmsProcessingResult :=
  processIncomingSms 3000 "MPESA" autoRepayBody 600 { debts := [fulizaDebtRow] }

def nanRun : DB × SmsProcessingResult :=
  processIncomingSms 0 "MPESA" nanBody 0 {}

/-- The paybill message, received at time 200. -/
def mpRow : RawSmsRow := ⟨1, "MPESA", paybillBody, 200, none, .pending,
  none, none⟩

/-- The longer-named confirmation, received EARLIER, at time 100. -/
def confRow : RawSmsRow := ⟨2, "KCB", confBody, 100, none, .pending, none,
  none⟩

/-- The same confirmation received later, at time 300. -/
def confRowLate : RawSmsRow := ⟨2, "KCB", confBody, 300, none, .pending,
  none, none⟩

/-- The parse of `paybillBody` (checked by `decide` where used). -/
def paybillParsed : ParsedSms :=
  .mpesa_paybill "UAF3H3ZJNR" (some 67000) "KES" "KCB" "123"
    (.comp 2026 0 3 19 41 0) none none paybillBody

/-- The parse of `confBody` (checked by `decide` where used). -/
def confParsed : ParsedSms :=
  .bank_confirmation "UAF3H3ZJNR" (some 67100) "KES"
    "KCB BANK KENYA LIMITED" "123" (.comp 2026 0 3 21 15 0) confBody

/-- A draw reporting outstanding 716.62 with fee 7.17. -/
def drawEventA : ParsedFuliza :=
  ⟨"UAH3H46G3P", some 70945, some 717, some 71662, .epoch 777⟩

/-- A repayment of 500.00. -/
def repayEventA : ParsedFulizaRepayment := ⟨"UAH3H46G3Q", some 50000⟩

/-- A second draw. -/
def drawEventB : ParsedFuliza :=
  ⟨"UAH3H46G3R", some 30000, some 300, some 52000, .epoch 888⟩

/-! ## Helper lemmas -/

theorem getSenderType_ne_card (s : String) :
    getSenderType s ≠ SenderType.card := by
  have key : ∀ n : String,
      (if (jsIncludes n "MPESA" || jsIncludes n "M-PESA") = true then
        SenderType.mpesa
      else if (FINANCIAL_SENDERS.any
          (fun t => jsIncludes n t && !jsIncludes n "MPESA")) = true then
        SenderType.bank
      else SenderType.unknown) ≠ SenderType.card := by
    intro n
    split_ifs <;> simp
  exact key (jsTrim (jsToUpper s))

theorem updateImportStats_card (st : ImportStats) (s b : String) :
    (updateImportStats st s b).card = st.card := by
  cases h : getSenderType s
  case card => exact absurd h (getSenderType_ne_card s)
  case mpesa =>
    simp only [updateImportStats, h]
    split <;> rfl
  case bank => simp only [updateImportStats, h]
  case unknown => simp only [updateImportStats, h]

theorem importStatsLoop_card_aux (msgs : List (String × String)) :
    ∀ st : ImportStats,
      (msgs.foldl (fun st m => updateImportStats st m.1 m.2) st).card =
        st.card := by
  induction msgs with
  | nil => intro st; rfl
  | cons m rest ih =>
    intro st
    rw [List.foldl_cons, ih, updateImportStats_card]

theorem processFulizaRepayment_no_target (now : ℤ)
    (p : ParsedFulizaRepayment) (rawId : ℕ) (db : DB)
    (h : findFulizaRepayTarget db.debts = none) :
    processFulizaRepayment now p rawId db = db := by
  unfold processFulizaRepayment
  rw [h]

theorem countP_map_le {α : Type} (l : List α) (f : α → α) (p : α → Bool)
    (h : ∀ x ∈ l, p (f x) = true → p x = true) :
    (l.map f).countP p ≤ l.countP p := by
  induction l with
  | nil => simp
  | cons a t ih =>
    simp only [List.map_cons, List.countP_cons]
    have ht := ih (fun x hx => h x (List.mem_cons_of_mem a hx))
    by_cases hp : p (f a) = true
    · have h2 := h a (List.mem_cons_self a t) hp
      simp only [hp, h2, if_true]
      omega
    · simp only [Bool.not_eq_true] at hp
      simp only [hp, Bool.false_eq_true, if_false]
      split <;> omega

theorem countP_map_eq {α : Type} (l : List α) (f : α → α) (p : α → Bool)
    (h : ∀ x ∈ l, p (f x) = p x) :
    (l.map f).countP p = l.countP p := by
  induction l with
  | nil => simp
  | cons a t ih =>
    simp only [List.map_cons, List.countP_cons]
    rw [ih (fun x hx => h x (List.mem_cons_of_mem a hx)),
      h a (List.mem_cons_self a t)]

theorem applyFulizaEvent_active_le (now : ℤ) (db : DB) (e : FulizaEvent)
    (h : countActiveFuliza db ≤ 1) :
    countActiveFuliza (applyFulizaEvent now db e) ≤ 1 := by
  cases e with
  | draw p =>
    show countActiveFuliza (processFulizaMessage now p 0 db) ≤ 1
    unfold processFulizaMessage
    cases hfind : findFulizaActive db.debts with
    | some ex =>
      unfold countActiveFuliza at h ⊢
      dsimp only
      rw [countP_map_eq]
      · exact h
      · intro x hx
        by_cases hid : x.id = ex.id <;> simp [hid]
    | none =>
      unfold countActiveFuliza at h ⊢
      dsimp only
      rw [List.countP_append]
      have h0 : db.debts.countP
          (fun d => decide (d.type = .fuliza ∧ d.status = .active)) = 0 := by
        rw [List.countP_eq_zero]
        intro x hx
        have := List.find?_eq_none.mp hfind x hx
        simpa using this
      rw [h0]
      simp
  | repay p =>
    show countActiveFuliza (processFulizaRepayment now p 0 db) ≤ 1
    unfold processFulizaRepayment
    cases hfind : findFulizaRepayTarget db.debts with
    | none => exact h
    | some ex =>
      unfold countActiveFuliza at h ⊢
      dsimp only
      refine le_trans (countP_map_le _ _ _ ?_) h
      intro x hx hp
      by_cases hid : x.id = ex.id
      · simp only [hid, if_pos] at hp
        split at hp <;> simp_all
      · simpa [hid] using hp
  | sweep =>
    show countActiveFuliza (checkOverdueDebts now db).1 ≤ 1
    unfold checkOverdueDebts
    unfold countActiveFuliza at h ⊢
    dsimp only
    refine le_trans (countP_map_le _ _ _ ?_) h
    intro x hx hp
    by_cases hd : debtDueOverdue now x = true
    · simp [hd] at hp
    · simpa [hd] using hp

theorem replayFuliza_active_le (now : ℤ) (events : List FulizaEvent) :
    countActiveFuliza (replayFuliza now events) ≤ 1 := by
  unfold replayFuliza
  have key : ∀ (db : DB), countActiveFuliza db ≤ 1 →
      countActiveFuliza (events.foldl (applyFulizaEvent now) db) ≤ 1 := by
    induction events with
    | nil => intro db hdb; exact hdb
    | cons e rest ih =>
      intro db hdb
      rw [List.foldl_cons]
      exact ih _ (applyFulizaEvent_active_le now db e hdb)
  exact key {} (by decide)

theorem extractData_isSome_now (n1 n2 : ℤ) (t : SmsPatternType)
    (caps : Caps) (raw : String) :
    (extractData n1 t caps raw).isSome = (extractData n2 t caps raw).isSome := by
  cases t <;> rfl

theorem extractData_refCode_now (n1 n2 : ℤ) (t : SmsPatternType)
    (caps : Caps) (raw : String) (ht : t ≠ .card_transaction) :
    (extractData n1 t caps raw).map (fun p => p.refCode) =
      (extractData n2 t caps raw).map (fun p => p.refCode) := by
  cases t <;> first | rfl | exact absurd rfl ht

theorem parseMessageGo_now (n1 n2 : ℤ) (norm raw : String) :
    ∀ l, (parseMessageGo n1 norm raw l).patternType =
        (parseMessageGo n2 norm raw l).patternType ∧
      (parseMessageGo n1 norm raw l).success =
        (parseMessageGo n2 norm raw l).success ∧
      ((parseMessageGo n1 norm raw l).patternType ≠ .card_transaction →
        (parseMessageGo n1 norm raw l).data.map (fun p => p.refCode) =
          (parseMessageGo n2 norm raw l).data.map (fun p => p.refCode)) := by
  intro l
  induction l with
  | nil => exact ⟨rfl, rfl, fun _ => rfl⟩
  | cons e rest ih =>
    obtain ⟨t, p, tt⟩ := e
    dsimp only [parseMessageGo]
    cases hm : jsMatch p norm with
    | none => exact ih
    | some hit =>
      dsimp only
      cases hx1 : extractData n1 t hit.caps raw with
      | none =>
        have hx2 : extractData n2 t hit.caps raw = none := by
          have hs := extractData_isSome_now n1 n2 t hit.caps raw
          rw [hx1] at hs
          cases hx2 : extractData n2 t hit.caps raw with
          | none => rfl
          | some q => rw [hx2] at hs; simp at hs
        rw [hx2]
        exact ih
      | some parsed1 =>
        have hs := extractData_isSome_now n1 n2 t hit.caps raw
        rw [hx1] at hs
        cases hx2 : extractData n2 t hit.caps raw with
        | none => rw [hx2] at hs; simp at hs
        | some parsed2 =>
          refine ⟨rfl, rfl, ?_⟩
          intro hc
          have := extractData_refCode_now n1 n2 t hit.caps raw hc
          rw [hx1, hx2] at this
          simpa using this

theorem foldl_preserves_transactions {α : Type} (f : DB → α → DB)
    (hf : ∀ acc x, (f acc x).transactions = acc.transactions) :
    ∀ (l : List α) (acc : DB),
      (l.foldl f acc).transactions = acc.transactions := by
  intro l
  induction l with
  | nil => intro acc; rfl
  | cons a t ih => intro acc; rw [List.foldl_cons, ih, hf]

theorem processAndLink_transactions (now : ℤ) (id : ℕ) (body : String)
    (db : DB) :
    (processAndLink now id body db).1.transactions = db.transactions := by
  unfold processAndLink
  cases extractRefCodes body with
  | nil => rfl
  | cons primary rest =>
    dsimp only
    split
    · rfl
    · split <;>
        (refine foldl_preserves_transactions _ ?_ _ _
         intro acc x
         dsimp only
         split <;> rfl)

theorem markParsed_transactions (db : DB) (rawId : ℕ) (refCode : String)
    (now : ℤ) :
    (markParsed db rawId refCode now).transactions = db.transactions := rfl

theorem natLog2Aux_spec :
    ∀ (fuel n : ℕ), n ≤ fuel → 1 ≤ n →
      2 ^ natLog2Aux fuel n ≤ n ∧ n < 2 ^ (natLog2Aux fuel n + 1) := by
  intro fuel
  induction fuel with
  | zero => intro n hn h1; omega
  | succ f ih =>
    intro n hn h1
    by_cases h2 : 2 ≤ n
    · have hle : n / 2 ≤ f := by omega
      have h12 : 1 ≤ n / 2 := by omega
      obtain ⟨ha, hb⟩ := ih (n / 2) hle h12
      have hstep : natLog2Aux (f + 1) n = natLog2Aux f (n / 2) + 1 := by
        simp [natLog2Aux, h2]
      rw [hstep]
      constructor
      · rw [pow_succ]
        omega
      · rw [pow_succ]
        omega
    · have hn1 : n = 1 := by omega
      subst hn1
      have hstep : natLog2Aux (f + 1) 1 = 0 := by simp [natLog2Aux]
      rw [hstep]
      norm_num

theorem natLog2_spec (n : ℕ) (h : 1 ≤ n) :
    2 ^ natLog2 n ≤ n ∧ n < 2 ^ (natLog2 n + 1) :=
  natLog2Aux_spec n n le_rfl h

theorem rheFrac_bounds (a b : ℕ) (hb : 0 < b) :
    2 * a ≤ 2 * (b * rheFrac a b) + b ∧
      2 * (b * rheFrac a b) ≤ 2 * a + b := by
  have hdm := Nat.div_add_mod a b
  have hmod := Nat.mod_lt a hb
  unfold rheFrac
  dsimp only
  split_ifs with h1 h2 h3 <;>
    (try simp only [Nat.mul_add, Nat.mul_one]) <;> omega

theorem rheFrac_q (a b : ℕ) (hb : 0 < b) :
    |((rheFrac a b : ℕ) : ℚ) * b - a| ≤ (b : ℚ) / 2 := by
  obtain ⟨h1, h2⟩ := rheFrac_bounds a b hb
  have c1 : (2 * a : ℚ) ≤ 2 * (b * (rheFrac a b : ℚ)) + b := by
    exact_mod_cast h1
  have c2 : (2 : ℚ) * (b * (rheFrac a b : ℚ)) ≤ 2 * a + b := by
    exact_mod_cast h2
  rw [abs_le]
  constructor <;> linarith

theorem ltPow2_false (a b : ℕ) (t : ℤ) (hb : 0 < b)
    (h : ltPow2 a b t = false) : (2 : ℚ) ^ t ≤ (a : ℚ) / b := by
  have hbq : (0 : ℚ) < b := by exact_mod_cast hb
  unfold ltPow2 at h
  split_ifs at h with ht
  · simp only [decide_eq_false_iff_not, not_lt] at h
    have hq : ((b : ℚ)) * 2 ^ t.toNat ≤ a := by exact_mod_cast h
    rw [le_div_iff hbq]
    have hzp : (2 : ℚ) ^ t = 2 ^ t.toNat := by
      rw [← zpow_natCast (2 : ℚ) t.toNat, Int.toNat_of_nonneg ht]
    rw [hzp]
    linarith
  · simp only [decide_eq_false_iff_not, not_lt] at h
    have hq : (b : ℚ) ≤ (a : ℚ) * 2 ^ (-t).toNat := by exact_mod_cast h
    rw [le_div_iff hbq]
    have hzp : (2 : ℚ) ^ t = ((2 : ℚ) ^ (-t).toNat)⁻¹ := by
      rw [← zpow_natCast (2 : ℚ) (-t).toNat,
        Int.toNat_of_nonneg (by omega : (0 : ℤ) ≤ -t), ← zpow_neg, neg_neg]
    rw [hzp, inv_mul_le_iff (by positivity)]
    linarith

theorem flFrac_err (a b : ℕ) (hb : 0 < b) :
    |(flFrac a b).val - (a : ℚ) / b| ≤ ((a : ℚ) / b) / 2 ^ 53 := by
  rcases Nat.eq_zero_or_pos a with ha | ha
  · subst ha
    simp [flFrac, Dyadic.val]
  · have hbq : (0 : ℚ) < b := by exact_mod_cast hb
    have main : ∀ lg : ℤ, (2 : ℚ) ^ lg ≤ (a : ℚ) / b →
        |(Dyadic.val (if 0 ≤ lg - 52 then
            ⟨rheFrac a (b * 2 ^ (lg - 52).toNat), lg - 52⟩
          else ⟨rheFrac (a * 2 ^ (-(lg - 52)).toNat) b, lg - 52⟩)) -
            (a : ℚ) / b| ≤ ((a : ℚ) / b) / 2 ^ 53 := by
      intro lg hlow
      have htail : (2 : ℚ) ^ (lg - 53) ≤ ((a : ℚ) / b) / 2 ^ 53 := by
        have hsplit : (2 : ℚ) ^ (lg - 53) = 2 ^ lg / 2 ^ (53 : ℕ) := by
          rw [zpow_sub₀ (two_ne_zero)]
          norm_num
        rw [hsplit]
        exact (div_le_div_right (by positivity)).mpr hlow
      split_ifs with he
      · set E := (lg - 52).toNat with hE
        have hb2 : 0 < b * 2 ^ E := by positivity
        have hr := rheFrac_q a (b * 2 ^ E) hb2
        have hzp : (2 : ℚ) ^ (lg - 52) = 2 ^ E := by
          rw [hE, ← zpow_natCast (2 : ℚ) (lg - 52).toNat,
            Int.toNat_of_nonneg he]
        show |(rheFrac a (b * 2 ^ E) : ℚ) * (2 : ℚ) ^ (lg - 52) -
          (a : ℚ) / b| ≤ ((a : ℚ) / b) / 2 ^ 53
        rw [hzp]
        have key : (rheFrac a (b * 2 ^ E) : ℚ) * 2 ^ E - (a : ℚ) / b =
            ((rheFrac a (b * 2 ^ E) : ℚ) * ((b * 2 ^ E : ℕ) : ℚ) - a) /
              b := by
          push_cast
          field_simp
          ring
        rw [key, abs_div, abs_of_pos hbq]
        refine le_trans ((div_le_div_right hbq).mpr hr) ?_
        have hcoll : (((b * 2 ^ E : ℕ) : ℚ) / 2) / b = 2 ^ (lg - 53) := by
          rw [show lg - 53 = (lg - 52) - 1 by ring,
            zpow_sub_one₀ (two_ne_zero), hzp]
          push_cast
          field_simp
          ring
        rw [hcoll]
        exact htail
      · push_neg at he
        set F := (-(lg - 52)).toNat with hF
        have hr := rheFrac_q (a * 2 ^ F) b hb
        have hzp : (2 : ℚ) ^ (lg - 52) = ((2 : ℚ) ^ F)⁻¹ := by
          rw [hF, ← zpow_natCast (2 : ℚ) (-(lg - 52)).toNat,
            Int.toNat_of_nonneg (by omega : (0 : ℤ) ≤ -(lg - 52)),
            ← zpow_neg, neg_neg]
        show |(rheFrac (a * 2 ^ F) b : ℚ) * (2 : ℚ) ^ (lg - 52) -
          (a : ℚ) / b| ≤ ((a : ℚ) / b) / 2 ^ 53
        rw [hzp]
        have key : (rheFrac (a * 2 ^ F) b : ℚ) * ((2 : ℚ) ^ F)⁻¹ -
            (a : ℚ) / b =
            ((rheFrac (a * 2 ^ F) b : ℚ) * (b : ℚ) -
              ((a * 2 ^ F : ℕ) : ℚ)) / ((b : ℚ) * 2 ^ F) := by
          push_cast
          field_simp
          ring
        rw [key, abs_div, abs_of_pos (mul_pos hbq (by positivity))]
        refine le_trans
          ((div_le_div_right (mul_pos hbq (by positivity))).mpr hr) ?_
        have hcoll : ((b : ℚ) / 2) / ((b : ℚ) * 2 ^ F) = 2 ^ (lg - 53) := by
          rw [show lg - 53 = (lg - 52) - 1 by ring,
            zpow_sub_one₀ (two_ne_zero), hzp]
          field_simp
          ring
        rw [hcoll]
        exact htail
    obtain ⟨hA1, hA2⟩ := natLog2_spec a ha
    obtain ⟨hB1, hB2⟩ := natLog2_spec b hb
    unfold flFrac
    rw [if_neg (by omega : ¬a = 0)]
    cases hlt : ltPow2 a b ((natLog2 a : ℤ) - natLog2 b - 1 + 1) with
    | false =>
      have hres := main ((natLog2 a : ℤ) - natLog2 b - 1 + 1)
        (ltPow2_false a b _ hb hlt)
      simp only [hlt, Bool.false_eq_true, if_false]
      exact hres
    | true =>
      have hlow : (2 : ℚ) ^ ((natLog2 a : ℤ) - natLog2 b - 1) ≤
          (a : ℚ) / b := by
        have h1 : ((2 : ℚ) ^ natLog2 a) ≤ a := by exact_mod_cast hA1
        have h2 : (b : ℚ) ≤ 2 ^ (natLog2 b + 1) := by
          exact_mod_cast le_of_lt hB2
        have hzp : (2 : ℚ) ^ ((natLog2 a : ℤ) - natLog2 b - 1) =
            2 ^ natLog2 a / 2 ^ (natLog2 b + 1) := by
          rw [show (natLog2 a : ℤ) - natLog2 b - 1 =
            (natLog2 a : ℤ) - ((natLog2 b : ℤ) + 1) by ring]
          rw [show ((natLog2 b : ℤ) + 1) = ((natLog2 b + 1 : ℕ) : ℤ) by
            push_cast; ring]
          rw [zpow_sub₀ (two_ne_zero), zpow_natCast, zpow_natCast]
        rw [hzp]
        exact div_le_div (by positivity) h1 hbq h2
      have hres := main ((natLog2 a : ℤ) - natLog2 b - 1) hlow
      simp only [hlt, if_true]
      exact hres

theorem flMul100_err (d : Dyadic) :
    |(flMul100 d).val - 100 * d.val| ≤ (100 * d.val) / 2 ^ 53 := by
  unfold flMul100
  split_ifs with he
  · have h := flFrac_err (d.m * 100 * 2 ^ d.e.toNat) 1 (by norm_num)
    have hval : ((d.m * 100 * 2 ^ d.e.toNat : ℕ) : ℚ) / ((1 : ℕ) : ℚ) =
        100 * d.val := by
      unfold Dyadic.val
      push_cast
      rw [show ((2 : ℚ)) ^ d.e = 2 ^ d.e.toNat from by
        rw [← zpow_natCast (2 : ℚ) d.e.toNat, Int.toNat_of_nonneg he]]
      ring
    rw [hval] at h
    exact h
  · push_neg at he
    have h := flFrac_err (d.m * 100) (2 ^ (-d.e).toNat) (by positivity)
    have hval : ((d.m * 100 : ℕ) : ℚ) / ((2 ^ (-d.e).toNat : ℕ) : ℚ) =
        100 * d.val := by
      unfold Dyadic.val
      push_cast
      rw [show ((2 : ℚ)) ^ d.e = ((2 : ℚ) ^ (-d.e).toNat)⁻¹ from by
        rw [← zpow_natCast (2 : ℚ) (-d.e).toNat,
          Int.toNat_of_nonneg (by omega : (0 : ℤ) ≤ -d.e),
          ← zpow_neg, neg_neg]]
      ring
    rw [hval] at h
    exact h

theorem jsRoundD_eq (d : Dyadic) (n : ℕ)
    (h : |d.val - n| < 1 / 2) : jsRoundD d = n := by
  unfold jsRoundD
  split_ifs with he
  · have hv : d.val = ((d.m * 2 ^ d.e.toNat : ℕ) : ℚ) := by
      unfold Dyadic.val
      push_cast
      rw [show ((2 : ℚ)) ^ d.e = 2 ^ d.e.toNat from by
        rw [← zpow_natCast (2 : ℚ) d.e.toNat, Int.toNat_of_nonneg he]]
    rw [hv] at h
    by_contra hne
    have h1 : ((d.m * 2 ^ d.e.toNat : ℕ) : ℤ) - (n : ℤ) ≠ 0 := by
      intro h0
      exact hne (by omega)
    have h2 : (1 : ℤ) ≤ |((d.m * 2 ^ d.e.toNat : ℕ) : ℤ) - (n : ℤ)| :=
      Int.one_le_abs h1
    have h3 : (1 : ℚ) ≤ |((d.m * 2 ^ d.e.toNat : ℕ) : ℚ) - (n : ℚ)| := by
      exact_mod_cast h2
    linarith [abs_nonneg (((d.m * 2 ^ d.e.toNat : ℕ) : ℚ) - (n : ℚ))]
  · push_neg at he
    set F := (-d.e).toNat with hF
    have hv : d.val = (d.m : ℚ) / 2 ^ F := by
      unfold Dyadic.val
      rw [show ((2 : ℚ)) ^ d.e = ((2 : ℚ) ^ F)⁻¹ from by
        rw [hF, ← zpow_natCast (2 : ℚ) (-d.e).toNat,
          Int.toNat_of_nonneg (by omega : (0 : ℤ) ≤ -d.e),
          ← zpow_neg, neg_neg]]
      ring
    rw [hv, abs_sub_lt_iff] at h
    obtain ⟨hh1, hh2⟩ := h
    have hp : (0 : ℚ) < 2 ^ F := by positivity
    have hu : (d.m : ℚ) < (n : ℚ) * 2 ^ F + 2 ^ F / 2 := by
      have hm : (d.m : ℚ) / 2 ^ F < (n : ℚ) + 1 / 2 := by linarith
      calc (d.m : ℚ) = ((d.m : ℚ) / 2 ^ F) * 2 ^ F := by field_simp
        _ < ((n : ℚ) + 1 / 2) * 2 ^ F := mul_lt_mul_of_pos_right hm hp
        _ = (n : ℚ) * 2 ^ F + 2 ^ F / 2 := by ring
    have hl : (n : ℚ) * 2 ^ F - 2 ^ F / 2 < d.m := by
      have hm : (n : ℚ) - 1 / 2 < (d.m : ℚ) / 2 ^ F := by linarith
      calc (n : ℚ) * 2 ^ F - 2 ^ F / 2 = ((n : ℚ) - 1 / 2) * 2 ^ F := by
            ring
        _ < ((d.m : ℚ) / 2 ^ F) * 2 ^ F := mul_lt_mul_of_pos_right hm hp
        _ = (d.m : ℚ) := by field_simp
    have hu' : 2 * d.m + 2 ^ F < (n + 1) * 2 ^ (F + 1) := by
      have hq : ((2 * d.m + 2 ^ F : ℕ) : ℚ) <
          (((n + 1) * 2 ^ (F + 1) : ℕ) : ℚ) := by
        push_cast
        rw [pow_succ]
        linarith [hu]
      exact_mod_cast hq
    have hl' : n * 2 ^ (F + 1) ≤ 2 * d.m + 2 ^ F := by
      have hq : ((n * 2 ^ (F + 1) : ℕ) : ℚ) <
          ((2 * d.m + 2 ^ F : ℕ) : ℚ) + 1 := by
        push_cast
        rw [pow_succ]
        linarith [hl]
      have hq' : n * 2 ^ (F + 1) < 2 * d.m + 2 ^ F + 1 := by
        exact_mod_cast hq
      omega
    exact Nat.div_eq_of_lt_le hl' hu'

/-! ## Claim theorems -/

/-- Claim C10: the sender classifier returns only `mpesa`, `bank` or
`unknown` — `card` is never returned for any input — so the card counter
of the import summary can never be incremented: it stays 0 over every
fold of the statistics update. -/
theorem claim_C10 :
    (∀ s, getSenderType s ≠ SenderType.card) ∧
    (∀ msgs : List (String × String), (importStatsLoop msgs).card = 0) :=
  ⟨getSenderType_ne_card,
    fun msgs => importStatsLoop_card_aux msgs ⟨0, 0, 0, 0⟩⟩

/-- Witness for C10 at a concrete bank sender and import batch. -/
theorem claim_C10_witness :
    getSenderType "KCB" ≠ SenderType.card ∧
    (importStatsLoop [("MPESA", "hello")]).card = 0 :=
  ⟨claim_C10.1 "KCB", claim_C10.2 [("MPESA", "hello")]⟩

/-- Claim C9: once the overdue sweep has transitioned the Fuliza debts
(every active/partially-paid Fuliza debt was due and overdue), any
subsequently processed Fuliza repayment leaves the store completely
unchanged — no DebtPayment row, no status or outstanding change, no
`debt_repayment` Transaction — because the repayment handler only looks
up `active`/`partially_paid` debts. -/
theorem claim_C9 (now now2 : ℤ) (p : ParsedFulizaRepayment) (rawId : ℕ)
    (db : DB)
    (hdue : ∀ d ∈ db.debts, d.type = .fuliza →
      (d.status = .active ∨ d.status = .partially_paid) →
      debtDueOverdue now d = true) :
    processFulizaRepayment now2 p rawId (checkOverdueDebts now db).1 =
      (checkOverdueDebts now db).1 := by
  apply processFulizaRepayment_no_target
  unfold findFulizaRepayTarget
  rw [List.find?_eq_none]
  intro x hx
  unfold checkOverdueDebts at hx
  dsimp only at hx
  obtain ⟨d, hd, rfl⟩ := List.mem_map.mp hx
  simp only [decide_eq_true_eq]
  by_cases hdo : debtDueOverdue now d = true
  · rw [if_pos hdo]
    simp
  · rw [if_neg hdo]
    rintro ⟨hty, hst⟩
    exact hdo (hdue d hd hty hst)

/-- Witness for C9 at a concrete overdue state and repayment. -/
theorem claim_C9_witness :
    processFulizaRepayment 2000 repayEventA 7
        (checkOverdueDebts 1000 { debts := [fulizaDebtDue] }).1 =
      (checkOverdueDebts 1000 { debts := [fulizaDebtDue] }).1 :=
  claim_C9 1000 2000 repayEventA 7 { debts := [fulizaDebtDue] } (by decide)

/-- Claim C3: a Fuliza repayment of `R` against an existing
active/partially-paid facility with outstanding `P` appends exactly one
DebtPayment row, clamps the new outstanding at `max 0 (P - R)` (never
negative), sets the status to `paid` exactly when the new outstanding is
zero and to `partially_paid` otherwise, and emits one classified
Transaction of type `debt_repayment`. -/
theorem claim_C3 (now : ℤ) (p : ParsedFulizaRepayment) (rawId : ℕ)
    (db : DB) (d : DebtRow) (P R : ℤ)
    (hfind : findFulizaRepayTarget db.debts = some d)
    (hP : d.totalOutstanding = some P)
    (hR : p.amountRepaid = some R) :
    (processFulizaRepayment now p rawId db).debtPayments =
      db.debtPayments ++ [⟨db.debtPayments.length + 1, d.id, none, some R,
        .epoch now, some "Auto-detected Fuliza repayment"⟩] ∧
    (∀ d2 ∈ (processFulizaRepayment now p rawId db).debts, d2.id = d.id →
      d2.totalOutstanding = some (max 0 (P - R)) ∧
      (0 : ℤ) ≤ max 0 (P - R) ∧
      (d2.status = .paid ↔ max 0 (P - R) = 0) ∧
      (d2.status = .paid ∨ d2.status = .partially_paid)) ∧
    (processFulizaRepayment now p rawId db).transactions.map
        (fun t => (t.type, t.status, t.amount)) =
      db.transactions.map (fun t => (t.type, t.status, t.amount)) ++
        [(.debt_repayment, .classified, some R)] := by
  unfold processFulizaRepayment
  rw [hfind]
  dsimp only
  rw [hP, hR]
  refine ⟨by trivial, ?_, by simp⟩
  intro d2 hd2 hid
  obtain ⟨d0, hd0, rfl⟩ := List.mem_map.mp hd2
  by_cases h0 : d0.id = d.id
  · rw [if_pos h0]
    simp only [jsub, jmax0, jleZero]
    refine ⟨by trivial, le_max_left 0 (P - R), ?_, ?_⟩
    · constructor
      · intro hpaid
        by_cases hz : max 0 (P - R) ≤ 0
        · omega
        · simp only [decide_eq_true_eq] at hpaid
          rw [if_neg (by simpa using hz)] at hpaid
          exact absurd hpaid (by simp)
      · intro hz
        rw [if_pos (by simp [hz])]
    · by_cases hz : max 0 (P - R) ≤ 0
      · left; rw [if_pos (by simpa using hz)]
      · right; rw [if_neg (by simpa using hz)]
  · rw [if_neg h0] at hid ⊢
    exact absurd hid h0

/-- Witness for C3: repaying 500.00 against an outstanding of 716.62. -/
theorem claim_C3_witness :
    (processFulizaRepayment 9 repayEventA 4
        { debts := [fulizaDebtDue] }).debtPayments =
      [⟨1, 1, none, some 50000, .epoch 9,
        some "Auto-detected Fuliza repayment"⟩] ∧
    (∀ d2 ∈ (processFulizaRepayment 9 repayEventA 4
        { debts := [fulizaDebtDue] }).debts, d2.id = 1 →
      d2.totalOutstanding = some (max 0 (71662 - 50000)) ∧
      (0 : ℤ) ≤ max 0 (71662 - 50000) ∧
      (d2.status = .paid ↔ max 0 (71662 - 50000) = 0) ∧
      (d2.status = .paid ∨ d2.status = .partially_paid)) ∧
    (processFulizaRepayment 9 repayEventA 4
        { debts := [fulizaDebtDue] }).transactions.map
        (fun t => (t.type, t.status, t.amount)) =
      [(.debt_repayment, .classified, some 50000)] := by
  simpa using claim_C3 9 repayEventA 4 { debts := [fulizaDebtDue] }
    fulizaDebtDue 71662 50000 (by decide) (by decide) (by decide)

/-- Claim C1, amended: the draw handler updates in place only when a debt
with status exactly `active` exists — then no row is added, ids are
unchanged, and the matched row gets the in-place update the source
performs: `total_outstanding` is set to the draw's reported outstanding
value, the new fee is added to the cumulative fees, and `due_date` is
refreshed to the draw's due date.  At most one `active` Fuliza debt ever
exists over any event history; but a draw arriving while only a
`partially_paid` facility exists creates a second row, so the claimed
at-most-one bound on `active`/`partially_paid` rows fails (see the
counterexample). -/
theorem claim_C1_amended :
    (∀ (now : ℤ) (events : List FulizaEvent),
      countActiveFuliza (replayFuliza now events) ≤ 1) ∧
    (∀ (now : ℤ) (p : ParsedFuliza) (rawId : ℕ) (db : DB) (d : DebtRow),
      findFulizaActive db.debts = some d →
      (processFulizaMessage now p rawId db).debts.length =
        db.debts.length ∧
      (processFulizaMessage now p rawId db).debts.map (·.id) =
        db.debts.map (·.id) ∧
      ∀ d2 ∈ (processFulizaMessage now p rawId db).debts, d2.id = d.id →
        d2.totalOutstanding = p.totalOutstanding ∧
        d2.feesCharged = jadd (jorZero d.feesCharged) p.fee ∧
        d2.dueDate = some p.dueDate) := by
  constructor
  · exact replayFuliza_active_le
  · intro now p rawId db d hfind
    unfold processFulizaMessage
    rw [hfind]
    dsimp only
    refine ⟨by simp, ?_, ?_⟩
    · rw [List.map_map]
      apply List.map_congr_left
      intro x _
      by_cases hid : x.id = d.id <;> simp [hid]
    · intro d2 hd2 hid
      obtain ⟨d0, hd0, rfl⟩ := List.mem_map.mp hd2
      by_cases h0 : d0.id = d.id
      · rw [if_pos h0]
        exact ⟨rfl, rfl, rfl⟩
      · rw [if_neg h0] at hid
        exact absurd hid h0

/-- Witness for C1 (amended, second part) at a concrete active debt:
the update is in place and sets the outstanding, cumulative fees and
due date from the draw. -/
theorem claim_C1_witness :
    (processFulizaMessage 5 drawEventA 3
        { debts := [fulizaDebtRow] }).debts.length =
      ({ debts := [fulizaDebtRow] } : DB).debts.length ∧
    (processFulizaMessage 5 drawEventA 3
        { debts := [fulizaDebtRow] }).debts.map (·.id) =
      ({ debts := [fulizaDebtRow] } : DB).debts.map (·.id) ∧
    ∀ d2 ∈ (processFulizaMessage 5 drawEventA 3
        { debts := [fulizaDebtRow] }).debts, d2.id = fulizaDebtRow.id →
      d2.totalOutstanding = drawEventA.totalOutstanding ∧
      d2.feesCharged = jadd (jorZero fulizaDebtRow.feesCharged)
        drawEventA.fee ∧
      d2.dueDate = some drawEventA.dueDate :=
  claim_C1_amended.2 5 drawEventA 3 { debts := [fulizaDebtRow] }
    fulizaDebtRow (by decide)

/-- Counterexample for C1 as stated: after draw, partial repayment (the
sole facility row is now `partially_paid`), and a second draw, the store
holds TWO Fuliza rows with status in `active`/`partially_paid` — the
draw did not update the existing row in place, because the handler only
looks for status exactly `active`. -/
theorem claim_C1_counterexample :
    countOpenFuliza (replayFuliza 0
      [.draw drawEventA, .repay repayEventA]) = 1 ∧
    countOpenFuliza (replayFuliza 0
      [.draw drawEventA, .repay repayEventA, .draw drawEventB]) = 2 ∧
    (replayFuliza 0
      [.draw drawEventA, .repay repayEventA, .draw drawEventB]).debts.length
      = 2 := by decide

/-- Claim C4: the parser tries the dialect patterns in exactly the
documented precedence order (debt draw, debt auto-repayment, debt
repayment, savings transfer, income receipt, bank income, then the
expense dialects most-specific-first, ending with the generic send,
bank-confirmation and card patterns) and returns the first successful
match; consequently every body matched by the revolving-debt-draw
pattern parses as the `fuliza` dialect and never as the looser generic
send dialect. -/
theorem claim_C4 :
    (PATTERNS.map (fun e => e.1) =
      [.fuliza, .fuliza_auto_repayment, .fuliza_repayment,
       .mshwari_transfer, .mpesa_received, .bank_transfer, .mpesa_airtime,
       .mpesa_agent, .mpesa_till, .mpesa_paybill_alt, .mpesa_paybill,
       .mpesa_send, .bank_confirmation, .card_transaction]) ∧
    (∀ (now : ℤ) (body : String),
      (jsMatch FULIZA_PATTERN (normalizeBody body)).isSome = true →
      (parseMessage now body).patternType = .fuliza ∧
      (parseMessage now body).success = true ∧
      (parseMessage now body).patternType ≠ .mpesa_send) := by
  constructor
  · rfl
  · intro now body h
    obtain ⟨hit, hh⟩ := Option.isSome_iff_exists.mp h
    refine ⟨?_, ?_, ?_⟩ <;>
      simp [parseMessage, PATTERNS, parseMessageGo, hh, extractData]

/-- Witness for C4 at a real Fuliza draw message. -/
theorem claim_C4_witness :
    (parseMessage 0 fulizaBody).patternType = .fuliza ∧
    (parseMessage 0 fulizaBody).success = true ∧
    (parseMessage 0 fulizaBody).patternType ≠ .mpesa_send :=
  claim_C4.2 0 fulizaBody (by decide)

/-- Claim C6 (code bug): the parser recognizes the auto-repayment
dialect and declares it a `debt_repayment`, but the listener routes only
`fuliza` and `fuliza_repayment` to the debt service, so an auto-repayment
message (processed here against a store holding an active Fuliza debt)
creates a plain `pending_classification` Transaction with
`needsClassification = true`, leaves the debt untouched and appends no
DebtPayment — contradicting the handed-off, auto-classified behaviour
the claim describes for every debt-repayment variant. -/
theorem claim_C6_bug :
    (parseMessage 0 autoRepayBody).patternType = .fuliza_auto_repayment ∧
    (parseMessage 0 autoRepayBody).transactionType =
      some .debt_repayment ∧
    autoRun.2.success = true ∧
    autoRun.2.needsClassification = some true ∧
    autoRun.1.debts = [fulizaDebtRow] ∧
    autoRun.1.debtPayments = [] ∧
    autoRun.1.transactions.map (fun t => (t.type, t.status)) =
      [(.debt_repayment, .pending_classification)] := by decide

/-- Claim C8 (code bug): on a body where the send dialect matches but the
required amount capture is just a comma, `parseFloat` yields NaN and the
parser still reports success, so the pipeline persists a Transaction
whose amount is NaN (`none`) instead of rejecting the record like a
no-match. -/
theorem claim_C8_bug :
    (parseMessage 0 nanBody).success = true ∧
    (parseMessage 0 nanBody).patternType = .mpesa_send ∧
    ((parseMessage 0 nanBody).data.map (fun p => p.amount)) = some none ∧
    nanRun.2.success = true ∧
    nanRun.1.transactions.map (fun t => t.amount) = [none] := by decide

/-- Counterexample for C2 as stated: a card-transaction message is
accepted and parsed, but its reference code is synthesized from the
current clock (`CARD-` + `Date.now()`), so processing the identical
message a second time finds no existing transaction: two Transactions
are persisted and the second call does not report a duplicate. -/
theorem claim_C2_counterexample :
    cardRun1.2.success = true ∧
    cardRun1.2.isDuplicate = none ∧
    cardRun1.1.transactions.length = 1 ∧
    cardRun2.2.success = true ∧
    cardRun2.2.isDuplicate = none ∧
    cardRun2.1.transactions.length = 2 := by decide

/-- Claim C2, amended: re-parsing an identical body is stable — the
pattern type always agrees across calls, and for every dialect other
than the card dialect (whose reference code embeds the call clock) the
extracted reference code agrees too; and whenever an accepted, parsed
message's reference code already has a persisted Transaction, processing
reports the duplicate outcome, succeeds, and leaves the number of
persisted Transactions unchanged.  For card messages the original
idempotence claim fails (see the counterexample). -/
theorem claim_C2_amended :
    (∀ (now1 now2 : ℤ) (body : String),
      (parseMessage now1 body).patternType =
        (parseMessage now2 body).patternType ∧
      (parseMessage now1 body).success = (parseMessage now2 body).success ∧
      ((parseMessage now1 body).patternType ≠ .card_transaction →
        (parseMessage now1 body).data.map (fun p => p.refCode) =
          (parseMessage now2 body).data.map (fun p => p.refCode))) ∧
    (∀ (now : ℤ) (sender body : String) (ts : ℤ) (db : DB)
      (pd : ParsedSms),
      shouldProcess sender body = true →
      isFailedTransaction body = false →
      (parseMessage now body).success = true →
      (parseMessage now body).data = some pd →
      (∃ tx ∈ db.transactions, tx.primaryRefCode = pd.refCode) →
      (processIncomingSms now sender body ts db).2.isDuplicate =
          some true ∧
        (processIncomingSms now sender body ts db).2.success = true ∧
        (processIncomingSms now sender body ts
            db).1.transactions.length = db.transactions.length) := by
  constructor
  · intro now1 now2 body
    exact parseMessageGo_now now1 now2 (normalizeBody body) body PATTERNS
  · intro now sender body ts db pd hsp hft hsucc hdata hex
    have hfind : ∃ ex, findExistingTransaction pd.refCode
        { db with rawSms := db.rawSms ++ [⟨db.rawSms.length + 1, sender,
          body, ts, none, .pending, none, none⟩] } = some ex := by
      cases hf : db.transactions.find?
          (fun t => t.primaryRefCode == pd.refCode) with
      | some e => exact ⟨e, hf⟩
      | none =>
        exfalso
        obtain ⟨tx, htx, heq⟩ := hex
        exact List.find?_eq_none.mp hf tx htx (by simp [heq])
    obtain ⟨ex, hfind⟩ := hfind
    unfold processIncomingSms
    rw [if_neg (fun hc => hc hsp), if_neg (by simp [hft])]
    simp only [hsucc, hdata, hfind]
    refine ⟨trivial, trivial, ?_⟩
    rw [markParsed_transactions]
    split
    · split
      · split
        · simp [processAndLink_transactions]
        · simp [processAndLink_transactions]
      · simp [processAndLink_transactions]
    · simp [processAndLink_transactions]

/-- Witness for C2 (amended, second part): reprocessing the send message
against a store already holding its transaction. -/
theorem claim_C2_witness :
    (processIncomingSms 5000 "MPESA" sendBody 700
        dbWithSendTx).2.isDuplicate = some true ∧
      (processIncomingSms 5000 "MPESA" sendBody 700
          dbWithSendTx).2.success = true ∧
      (processIncomingSms 5000 "MPESA" sendBody 700
          dbWithSendTx).1.transactions.length =
        dbWithSendTx.transactions.length :=
  claim_C2_amended.2 5000 "MPESA" sendBody 700 dbWithSendTx sendParsed
    (by decide) (by decide) (by decide) (by decide) (by decide)

/-- Counterexample for C7 as stated: the merge is re-derived from the
whole group, but sorted by received time with the primary-channel
dialects overwriting the counterparty unconditionally — so when the
longer-named bank confirmation is RECEIVED earlier than the paybill
message, the merged record ends with the paybill's short name for either
processing order, not the confirmation's longer name. -/
theorem claim_C7_counterexample :
    (parseMessage 0 confBody).data = some confParsed ∧
    (parseMessage 0 paybillBody).data = some paybillParsed ∧
    String.length "KCB" < String.length "KCB BANK KENYA LIMITED" ∧
    (mergeRelatedMessages 0 [mpRow, confRow]).merged.counterparty =
      "KCB" ∧
    (mergeRelatedMessages 0 [confRow, mpRow]).merged.counterparty =
      "KCB" := by decide

/-- Claim C7, amended: for EVERY primary-channel (mobile-money) message —
any of the `mpesa_send`, `mpesa_paybill` and `mpesa_received` dialects —
received BEFORE the longer-named bank confirmation, the merge — being
re-derived from the whole group in received-time order — is independent
of the processing order of the pair, keeps the primary message's amount
and date, and adopts the confirmation's longer counterparty name.  (If
the confirmation is received first instead, the primary dialect's
unconditional overwrite makes the short name win: see the
counterexample.) -/
theorem claim_C7_amended (now : ℤ) (mp conf : RawSmsRow) (pd : ParsedSms)
    (crc : String) (camt : JSNum) (ccur business cacct : String)
    (cdt : DateV) (craw : String)
    (hs : (parseMessage now mp.body).success = true)
    (hd : (parseMessage now mp.body).data = some pd)
    (hprim : isMpesaPrimary pd = true)
    (hcs : (parseMessage now conf.body).success = true)
    (hcd : (parseMessage now conf.body).data =
      some (.bank_confirmation crc camt ccur business cacct cdt craw))
    (horder : mp.receivedAt < conf.receivedAt)
    (hbus : business ≠ "")
    (hlen : (getCounterparty pd).length < business.length) :
    (mergeRelatedMessages now [mp, conf]).merged =
        (mergeRelatedMessages now [conf, mp]).merged ∧
      (mergeRelatedMessages now [mp, conf]).merged.counterparty =
        business ∧
      (mergeRelatedMessages now [mp, conf]).merged.amount = pd.amount ∧
      (mergeRelatedMessages now [mp, conf]).merged.transactionDate =
        pd.transactionDate := by
  have hsort1 : sortByReceived [mp, conf] = [mp, conf] := by
    simp [sortByReceived, insertByReceived, horder.le]
  have hsort2 : sortByReceived [conf, mp] = [mp, conf] := by
    simp [sortByReceived, insertByReceived, not_le.mpr horder]
  have heq : (mergeRelatedMessages now [mp, conf]).merged =
      (mergeRelatedMessages now [conf, mp]).merged := by
    unfold mergeRelatedMessages
    dsimp only
    rw [hsort1, hsort2]
  have hcore : (List.foldl (mergeStep now)
      ⟨"", some 0, "", .epoch now, none, none, []⟩
        [mp, conf]).counterparty = business ∧
      (List.foldl (mergeStep now)
        ⟨"", some 0, "", .epoch now, none, none, []⟩
          [mp, conf]).amount = pd.amount ∧
      (List.foldl (mergeStep now)
        ⟨"", some 0, "", .epoch now, none, none, []⟩
          [mp, conf]).transactionDate = pd.transactionDate := by
    rw [List.foldl_cons, List.foldl_cons, List.foldl_nil]
    cases pd
    case mpesa_send rc amt cur recip phone dt bal fee raw =>
      have hlen2 : recip.length < business.length := hlen
      unfold mergeStep
      simp only [hs, hd, hcs, hcd]
      rw [if_pos ⟨hbus, hlen2⟩]
      exact ⟨rfl, rfl, rfl⟩
    case mpesa_paybill rc amt cur pname acct dt bal fee raw =>
      have hlen2 : pname.length < business.length := hlen
      unfold mergeStep
      simp only [hs, hd, hcs, hcd]
      rw [if_pos ⟨hbus, hlen2⟩]
      exact ⟨rfl, rfl, rfl⟩
    case mpesa_received rc amt cur sender phone dt raw =>
      have hlen2 : sender.length < business.length := hlen
      unfold mergeStep
      simp only [hs, hd, hcs, hcd]
      rw [if_pos ⟨hbus, hlen2⟩]
      exact ⟨rfl, rfl, rfl⟩
    all_goals simp [isMpesaPrimary] at hprim
  refine ⟨heq, ?_, ?_, ?_⟩ <;>
    (unfold mergeRelatedMessages
     dsimp only
     rw [hsort1])
  · exact hcore.1
  · exact hcore.2.1
  · exact hcore.2.2

/-- Witness for C7 (amended) on the real paybill/confirmation pair with
the confirmation received later. -/
theorem claim_C7_witness :
    (mergeRelatedMessages 0 [mpRow, confRowLate]).merged =
        (mergeRelatedMessages 0 [confRowLate, mpRow]).merged ∧
      (mergeRelatedMessages 0 [mpRow, confRowLate]).merged.counterparty =
        "KCB BANK KENYA LIMITED" ∧
      (mergeRelatedMessages 0 [mpRow, confRowLate]).merged.amount =
        paybillParsed.amount ∧
      (mergeRelatedMessages 0
          [mpRow, confRowLate]).merged.transactionDate =
        paybillParsed.transactionDate :=
  claim_C7_amended 0 mpRow confRowLate paybillParsed "UAF3H3ZJNR"
    (some 67100) "KES" "KCB BANK KENYA LIMITED" "123"
    (.comp 2026 0 3 21 15 0) confBody
    (by decide) (by decide) (by decide) (by decide) (by decide)
    (by decide) (by decide) (by decide)

/-- Counterexample for C5 as stated: the parser routes every amount
through a binary64 double (`parseFloat` then `* 100` then
`Math.round`), and for the valid amount string
`"100,000,000,000,000,000.01"` — exact cents 10^19 + 1 — the double
rounding loses the final cent and the parser returns 10^19.  So the
exact-cents round-trip does not hold for all valid amount strings, and a
floating-point representation IS used between parsing and persistence. -/
theorem claim_C5_counterexample :
    decLit (stripCommas "100,000,000,000,000,000.01") =
      some ⟨10000000000000000001, 2⟩ ∧
    100 * 10000000000000000001 = 10000000000000000001 * 10 ^ 2 ∧
    parseAmountToCents "100,000,000,000,000,000.01" =
      some 10000000000000000000 ∧
    (10000000000000000000 : ℤ) ≠ 10000000000000000001 := by decide

/-- Claim C5, amended: the amount parser does pass through a transient
binary64 double, but for every amount string whose comma-stripped text
is a decimal literal with exact integer cents value `n ≤ 10^15` (which
covers all real-world amounts: two decimal places and values up to ten
trillion currency units), both roundings are absorbed by the final
`Math.round` and the parser returns exactly `n` — in particular
`"1,234.56"` yields 123456 and `"330.00"` yields 33000.  Above 10^15
cents exactness fails (see the counterexample). -/
theorem claim_C5_amended (s : String) (dv : DecVal) (n : ℕ)
    (hd : decLit (stripCommas s) = some dv)
    (hn : 100 * dv.m = n * 10 ^ dv.k)
    (hsmall : n ≤ 10 ^ 15) :
    parseAmountToCents s = some (n : ℤ) := by
  have hbpos : 0 < 10 ^ dv.k := pow_pos (by norm_num) dv.k
  have key : jsRoundD (flMul100 (flFrac dv.m (10 ^ dv.k))) = n := by
    apply jsRoundD_eq
    have h1 := flFrac_err dv.m (10 ^ dv.k) hbpos
    have h2 := flMul100_err (flFrac dv.m (10 ^ dv.k))
    set q : ℚ := (dv.m : ℚ) / ((10 ^ dv.k : ℕ) : ℚ) with hq
    set x := (flFrac dv.m (10 ^ dv.k)).val with hx
    set y := (flMul100 (flFrac dv.m (10 ^ dv.k))).val with hy
    have hqn : 100 * q = (n : ℚ) := by
      rw [hq]
      have hcast : ((100 * dv.m : ℕ) : ℚ) = ((n * 10 ^ dv.k : ℕ) : ℚ) := by
        exact_mod_cast hn
      push_cast at hcast
      have hb0 : ((10 : ℚ)) ^ dv.k ≠ 0 := by positivity
      field_simp
      linarith [hcast]
    have hq0 : (0 : ℚ) ≤ q := by
      rw [hq]
      positivity
    have hN : (n : ℚ) ≤ 10 ^ 15 := by exact_mod_cast hsmall
    rw [abs_le] at h1 h2
    obtain ⟨h1a, h1b⟩ := h1
    obtain ⟨h2a, h2b⟩ := h2
    rw [abs_sub_lt_iff]
    have e53 : (2 : ℚ) ^ (53 : ℕ) = 9007199254740992 := by norm_num
    rw [e53] at h1a h1b h2a h2b
    constructor <;> linarith
  unfold parseAmountToCents
  rw [hd]
  dsimp only
  rw [key]

/-- Witness for C5 (amended) at the two amounts named by the spec. -/
theorem claim_C5_witness :
    parseAmountToCents "1,234.56" = some (123456 : ℤ) ∧
    parseAmountToCents "330.00" = some (33000 : ℤ) :=
  ⟨claim_C5_amended "1,234.56" ⟨123456, 2⟩ 123456 (by decide) (by decide)
      (by decide),
    claim_C5_amended "330.00" ⟨33000, 2⟩ 33000 (by decide) (by decide)
      (by decide)⟩

end PesaLog



